import Mathlib

/-!
Shallow embedding of the gift-subscription engine of this repository
(`db/models.py`, `db/dal/gift_dal.py`, `bot/services/gift_service.py`).

Modelling conventions:
* timestamps are `Nat` seconds since the UTC epoch; `datetime.now(timezone.utc)`
  becomes an explicit `now : Nat` argument; `timedelta(days = d)` is `d * 86400`
  and `timedelta(hours = h)` is `h * 3600`;
* monetary amounts (`Float` columns holding ruble prices) are modelled as `Int`;
* the database is a `GiftStore` value threaded explicitly through every
  operation; `session.flush()` makes a write visible in the returned store,
  `session.rollback()` returns the store that was current at the start of the
  transaction;
* each user-facing message built by the source is mirrored by one error
  constructor whose arguments are exactly the values interpolated into that
  message;
* `SELECT ... FOR UPDATE` row locking, the external subscription-activation
  call, and commit/rollback are recorded as `DbEvent`s so that statements about
  locking and ordering can be made.
-/

namespace GiftSpec

/-- `db/models.py` `GiftRecipientType`. -/
inductive GiftRecipientType
  | random
  | direct
  deriving DecidableEq

/-- `db/models.py` `GiftStatus`. -/
inductive GiftStatus
  | pending_payment
  | payment_failed
  | ready
  | activated
  | expired
  | cancelled
  | refunded
  deriving DecidableEq

/-- The five terminal states of the §4.3 lifecycle. -/
def GiftStatus.isTerminal : GiftStatus → Bool
  | GiftStatus.activated => true
  | GiftStatus.expired => true
  | GiftStatus.cancelled => true
  | GiftStatus.refunded => true
  | GiftStatus.payment_failed => true
  | _ => false

/-- `db/models.py` `User` (the fields the gift subsystem reads). -/
structure User where
  user_id : Int
  username : Option String
  is_banned : Bool
  deriving DecidableEq

/-- `db/models.py` `Tariff` (the fields the gift subsystem reads). -/
structure Tariff where
  id : Nat
  name : String
  price : Int
  currency : String
  duration_days : Nat
  is_active : Bool
  deriving DecidableEq

/-- `db/models.py` `GiftedSubscription` row. -/
structure Gift where
  gift_id : Nat
  gift_code : String
  donor_user_id : Int
  donor_username : Option String
  recipient_type : GiftRecipientType
  recipient_user_id : Option Int
  recipient_username : Option String
  tariff_id : Nat
  duration_days : Nat
  payment_id : Option Nat
  amount : Int
  currency : String
  status : GiftStatus
  created_at : Nat
  paid_at : Option Nat
  activated_at : Option Nat
  expires_at : Option Nat
  cancelled_at : Option Nat
  idempotency_key : String
  message_to_recipient : Option String
  metadata : Option String
  deriving DecidableEq

/-- The relational state the gift subsystem reads and writes: the
`gifted_subscriptions`, `users` and `tariffs` tables, plus the identity
counter backing the autoincrement `gift_id` column. -/
structure GiftStore where
  gifts : List Gift
  users : List User
  tariffs : List Tariff
  next_gift_id : Nat
  deriving DecidableEq

/-- Well-formedness that the unique indexes of `gifted_subscriptions` maintain:
`gift_id` (primary key) and `gift_code` (unique index) are pairwise distinct. -/
def GiftStore.WF (s : GiftStore) : Prop :=
  (s.gifts.map Gift.gift_id).Nodup ∧ (s.gifts.map Gift.gift_code).Nodup

instance (s : GiftStore) : Decidable s.WF := by
  unfold GiftStore.WF; infer_instance

/-- Observable database-side effects of one service call: the row lock taken by
`SELECT ... FOR UPDATE`, the external subscription-activation capability being
invoked, and transaction commit/rollback. -/
inductive DbEvent
  | lockRow (gift_code : String)
  | subscriptionCall (user_id : Int) (tariff_id : Nat)
  | commitTx
  | rollbackTx
  deriving DecidableEq

namespace GiftDal

/-- `gift_dal.py` `GIFT_EXPIRATION_DAYS = 90`. -/
def GIFT_EXPIRATION_DAYS : Nat := 90

/-- Modelled from the spec: `user_dal.get_user_by_id` (the `user_dal` module is
not under `src/`; per the spec the donor/recipient checks are plain repository
lookups by identifier). -/
def get_user_by_id (s : GiftStore) (uid : Int) : Option User :=
  s.users.find? fun u => u.user_id == uid

/-- `tariff_dal.py` `get_tariff_by_id`: primary-key lookup. -/
def get_tariff_by_id (s : GiftStore) (tid : Nat) : Option Tariff :=
  s.tariffs.find? fun t => t.id == tid

/-- `gift_dal.py` `get_gift_by_id` (lines 152-179): plain `SELECT` by primary
key; this query has no `for_update` option. -/
def get_gift_by_id (s : GiftStore) (gid : Nat) : Option Gift :=
  s.gifts.find? fun g => g.gift_id == gid

/-- `gift_dal.py` `get_gift_by_code` (lines 182-214): `SELECT` by the unique
`gift_code`; callers that pass `for_update=True` are the ones that emit a
`DbEvent.lockRow` for the found row. -/
def get_gift_by_code (s : GiftStore) (code : String) : Option Gift :=
  s.gifts.find? fun g => g.gift_code == code

/-- `gift_dal.py` `get_gift_by_payment_id` (lines 217-244). -/
def get_gift_by_payment_id (s : GiftStore) (pid : Nat) : Option Gift :=
  s.gifts.find? fun g => g.payment_id == some pid

/-- ORM object mutation followed by `flush`: replace the row whose `gift_id`
is `gid` by its image under `f`. -/
def putGift (s : GiftStore) (gid : Nat) (f : Gift → Gift) : GiftStore :=
  { s with gifts := s.gifts.map fun g => if g.gift_id == gid then f g else g }

/-- `gift_dal.py` `update_gift_status` (lines 331-366).  The one call site
embedded here (`validate_gift_code_for_activation` line 585) passes no
`additional_fields`, so only `status` is written. -/
def update_gift_status (s : GiftStore) (gid : Nat) (new_status : GiftStatus) :
    GiftStore × Option Gift :=
  match get_gift_by_id s gid with
  | none => (s, none)
  | some g =>
      (putGift s gid fun g0 => { g0 with status := new_status },
       some { g with status := new_status })

/-- The field writes of `mark_gift_as_paid` lines 404-407. -/
def paidFields (now pid : Nat) (g0 : Gift) : Gift :=
  { g0 with
    status := GiftStatus.ready
    payment_id := some pid
    paid_at := some now
    expires_at := some (now + GIFT_EXPIRATION_DAYS * 86400) }

/-- The lazy-expiry write `gift.status = GiftStatus.expired`. -/
def expireField (g0 : Gift) : Gift :=
  { g0 with status := GiftStatus.expired }

/-- The field writes of `activate_gift` lines 476-477. -/
def activationFields (now : Nat) (g0 : Gift) : Gift :=
  { g0 with status := GiftStatus.activated, activated_at := some now }

/-- The recipient assignment of `activate_gift` lines 466-473 for a `random`
gift: sets `recipient_user_id` and, when the redeemer exists and has a
username, `recipient_username`. -/
def assignRecipient (s : GiftStore) (rid : Int) (g0 : Gift) : Gift :=
  { g0 with
    recipient_user_id := some rid
    recipient_username :=
      match (get_user_by_id s rid).bind User.username with
      | some n => some n
      | none => g0.recipient_username }

/-- The field writes of `cancel_gift` lines 523-524. -/
def cancelFields (now : Nat) (g0 : Gift) : Gift :=
  { g0 with status := GiftStatus.cancelled, cancelled_at := some now }

/-- `gift.expires_at and gift.expires_at < now`: false when `expires_at` is
NULL, otherwise the strict comparison. -/
def expiresBefore (g : Gift) (now : Nat) : Bool :=
  match g.expires_at with
  | some t => decide (t < now)
  | none => false

/-- `gift_dal.py` `mark_gift_as_paid` (lines 369-417): from `pending_payment`
sets `status = ready`, `payment_id`, `paid_at = now`,
`expires_at = now + 90 days`; in any other status returns the row unchanged. -/
def mark_gift_as_paid (s : GiftStore) (now : Nat) (gid pid : Nat) :
    GiftStore × Option Gift :=
  match get_gift_by_id s gid with
  | none => (s, none)
  | some g =>
      if g.status ≠ GiftStatus.pending_payment then (s, some g)
      else (putGift s gid (paidFields now pid), some (paidFields now pid g))

/-- Error strings returned by `gift_dal.activate_gift`, one constructor per
format string. -/
inductive ActivateDalError
  | giftNotFound
  | notReady (st : GiftStatus)
  | hasExpired
  | intendedForAnotherUser
  | cannotActivateOwnGift
  deriving DecidableEq

/-- `gift_dal.py` `activate_gift` (lines 420-487): re-checks status, lazy
expiry, and recipient eligibility, then writes `status = activated`,
`activated_at = now` (and, for `random` gifts, assigns the recipient). -/
def activate_gift (s : GiftStore) (now : Nat) (gid : Nat) (rid : Int) :
    GiftStore × Option Gift × Option ActivateDalError :=
  match get_gift_by_id s gid with
  | none => (s, none, some ActivateDalError.giftNotFound)
  | some g =>
      if g.status ≠ GiftStatus.ready then
        (s, some g, some (ActivateDalError.notReady g.status))
      else if expiresBefore g now then
        (putGift s gid expireField, some (expireField g),
         some ActivateDalError.hasExpired)
      else
        match g.recipient_type with
        | GiftRecipientType.direct =>
            if g.recipient_user_id ≠ some rid then
              (s, some g, some ActivateDalError.intendedForAnotherUser)
            else
              let s1 := putGift s gid (activationFields now)
              (s1, get_gift_by_id s1 gid, none)
        | GiftRecipientType.random =>
            if g.donor_user_id = rid then
              (s, some g, some ActivateDalError.cannotActivateOwnGift)
            else
              let s1 := putGift s gid fun g0 => activationFields now (assignRecipient s rid g0)
              (s1, get_gift_by_id s1 gid, none)

/-- Error strings returned by `gift_dal.cancel_gift`, one constructor per
format string. -/
inductive CancelDalError
  | giftNotFound
  | notDonor
  | cannotCancelInStatus (st : GiftStatus)
  deriving DecidableEq

/-- `gift_dal.py` `cancel_gift` (lines 490-531): only the donor, only from
`pending_payment` or `ready`; writes `status = cancelled`,
`cancelled_at = now`. -/
def cancel_gift (s : GiftStore) (now : Nat) (gid : Nat) (donor_user_id : Int) :
    GiftStore × Option Gift × Option CancelDalError :=
  match get_gift_by_id s gid with
  | none => (s, none, some CancelDalError.giftNotFound)
  | some g =>
      if g.donor_user_id ≠ donor_user_id then
        (s, some g, some CancelDalError.notDonor)
      else if g.status = GiftStatus.pending_payment ∨ g.status = GiftStatus.ready then
        (putGift s gid (cancelFields now), some (cancelFields now g), none)
      else
        (s, some g, some (CancelDalError.cannotCancelInStatus g.status))

/-- Error strings returned by `gift_dal.validate_gift_code_for_activation`,
one constructor per format string.  Both the `status == expired` branch and
the lazy-expiry branch return the same message "This gift has expired", hence
a single `hasExpired` constructor. -/
inductive ValidateError
  | invalidCode
  | alreadyActivated
  | hasExpired
  | wasCancelled
  | notAvailable (st : GiftStatus)
  | intendedForAnotherUser
  | cannotActivateOwnGift
  deriving DecidableEq

/-- The status-specific rejection of `validate_gift_code_for_activation`
lines 571-579 (reached only when the status is not `ready`). -/
def statusError (st : GiftStatus) : ValidateError :=
  match st with
  | GiftStatus.activated => ValidateError.alreadyActivated
  | GiftStatus.expired => ValidateError.hasExpired
  | GiftStatus.cancelled => ValidateError.wasCancelled
  | st => ValidateError.notAvailable st

/-- `gift_dal.py` `validate_gift_code_for_activation` (lines 538-597): fetches
the row with `SELECT ... FOR UPDATE` (`for_update=True`, line 563 — recorded
as `DbEvent.lockRow` when a row is found), rejects non-`ready` statuses with a
specific reason, performs the lazy-expiry write through `update_gift_status`
when `expires_at` has passed, then checks recipient eligibility.  Returns
(store, gift, error, events). -/
def validate_gift_code_for_activation (s : GiftStore) (now : Nat) (code : String)
    (rid : Int) : GiftStore × Option Gift × Option ValidateError × List DbEvent :=
  match get_gift_by_code s code with
  | none => (s, none, some ValidateError.invalidCode, [])
  | some g =>
      let ev := [DbEvent.lockRow code]
      if g.status ≠ GiftStatus.ready then
        (s, some g, some (statusError g.status), ev)
      else if expiresBefore g now then
        let s1 := (update_gift_status s g.gift_id GiftStatus.expired).1
        (s1, some (expireField g), some ValidateError.hasExpired, ev)
      else
        match g.recipient_type with
        | GiftRecipientType.direct =>
            if g.recipient_user_id ≠ some rid then
              (s, some g, some ValidateError.intendedForAnotherUser, ev)
            else (s, some g, none, ev)
        | GiftRecipientType.random =>
            if g.donor_user_id = rid then
              (s, some g, some ValidateError.cannotActivateOwnGift, ev)
            else (s, some g, none, ev)

/-- `gift_dal.py` `check_user_gift_rate_limit` (lines 600-641): count of the
donor's gifts created in the trailing window; allowed while strictly below
`max_gifts`. -/
def check_user_gift_rate_limit (s : GiftStore) (now : Nat) (uid : Int)
    (hours : Nat) (max_gifts : Nat) : Bool × Nat :=
  let threshold := now - hours * 3600
  let count := s.gifts.countP fun g =>
    g.donor_user_id == uid && decide (threshold ≤ g.created_at)
  (decide (count < max_gifts), count)

/-- `today_start = now.replace(hour=0, minute=0, second=0, microsecond=0)`:
midnight UTC of the current day. -/
def todayStartUTC (now : Nat) : Nat := now / 86400 * 86400

/-- `gift_dal.py` `check_user_daily_gift_spending` (lines 644-690): sums
`amount` over the donor's gifts created since midnight UTC whose status is in
`[pending_payment, ready, activated]`; allowed while the sum is strictly below
`max_amount`. -/
def check_user_daily_gift_spending (s : GiftStore) (now : Nat) (uid : Int)
    (max_amount : Int) : Bool × Int :=
  let total := (s.gifts.filter fun g =>
      g.donor_user_id == uid &&
      decide (todayStartUTC now ≤ g.created_at) &&
      (g.status == GiftStatus.pending_payment ||
       g.status == GiftStatus.ready ||
       g.status == GiftStatus.activated)).foldl (fun acc g => acc + g.amount) 0
  (decide (total < max_amount), total)

/-- `gift_dal.py` `expire_old_gifts` (lines 869-900): one bulk conditional
`UPDATE` setting `status = expired` on every `ready` row with
`expires_at < now`; returns the number of rows hit. -/
def expire_old_gifts (s : GiftStore) (now : Nat) : GiftStore × Nat :=
  ({ s with gifts := s.gifts.map fun g =>
      if g.status == GiftStatus.ready && expiresBefore g now then expireField g
      else g },
   s.gifts.countP fun g => g.status == GiftStatus.ready && expiresBefore g now)

/-- Exceptions `create_gift_record` can raise: `ValueError` from its own
validations, and the `IntegrityError` a unique-constraint violation raises at
`flush`. -/
inductive DalException
  | valueError
  | integrityError
  deriving DecidableEq

/-- The `gift_data` dict assembled by `GiftService.create_gift` step 9. -/
structure GiftData where
  donor_user_id : Int
  recipient_type : GiftRecipientType
  tariff_id : Nat
  duration_days : Nat
  amount : Int
  currency : String
  idempotency_key : String
  recipient_user_id : Option Int
  message_to_recipient : Option String
  metadata : Option String
  deriving DecidableEq

/-- `gift_dal.py` `create_gift_record` (lines 74-145): re-validates donor,
tariff and (for `direct`) recipient, generates a unique code (the drawn code
is the explicit `fresh_code` argument here), inserts the row with
`status = pending_payment`, and raises `IntegrityError` at `flush` if the
unique indexes on `gift_code` or `idempotency_key` are violated. -/
def create_gift_record (s : GiftStore) (now : Nat) (fresh_code : String)
    (d : GiftData) : Except DalException (GiftStore × Gift) :=
  match get_user_by_id s d.donor_user_id with
  | none => Except.error DalException.valueError
  | some donor =>
      match get_tariff_by_id s d.tariff_id with
      | none => Except.error DalException.valueError
      | some _ =>
          let recipientOk : Bool :=
            match d.recipient_type, d.recipient_user_id with
            | GiftRecipientType.direct, none => false
            | GiftRecipientType.direct, some rid =>
                (get_user_by_id s rid).isSome
            | GiftRecipientType.random, _ => true
          if ¬ recipientOk then Except.error DalException.valueError
          else if s.gifts.any fun g0 =>
              g0.gift_code == fresh_code ||
              g0.idempotency_key == d.idempotency_key then
            Except.error DalException.integrityError
          else
            let g : Gift :=
              { gift_id := s.next_gift_id
                gift_code := fresh_code
                donor_user_id := d.donor_user_id
                donor_username := donor.username
                recipient_type := d.recipient_type
                recipient_user_id := d.recipient_user_id
                recipient_username := none
                tariff_id := d.tariff_id
                duration_days := d.duration_days
                payment_id := none
                amount := d.amount
                currency := d.currency
                status := GiftStatus.pending_payment
                created_at := now
                paid_at := none
                activated_at := none
                expires_at := none
                cancelled_at := none
                idempotency_key := d.idempotency_key
                message_to_recipient := d.message_to_recipient
                metadata := d.metadata }
            Except.ok
              ({ s with gifts := s.gifts ++ [g], next_gift_id := s.next_gift_id + 1 },
               g)

end GiftDal

namespace GiftService

/-- `gift_service.py` constants (lines 30-32). -/
def MAX_GIFTS_PER_HOUR : Nat := 3

/-- `gift_service.py` constants (lines 30-32). -/
def MAX_GIFTS_PER_DAY : Nat := 10

/-- `gift_service.py` constants (lines 30-32). -/
def MAX_DAILY_SPENDING : Int := 10000

/-- Python truthiness of an optional id (`if recipient_user_id:`): false for
`None` and for `0`. -/
def truthyId : Option Int → Bool
  | none => false
  | some v => v != 0

/-- Python truthiness of an optional string (`if message_to_recipient:`):
false for `None` and for the empty string. -/
def truthyStr : Option String → Bool
  | none => false
  | some v => v != ""

/-- The failure messages of `GiftService.create_gift`, one constructor per
format string; each argument is a value the source interpolates into that
message.  `internalError` is the `"Internal error: ..."` path: the exception
handler that rolls the session back. -/
inductive CreateError
  | donorNotFound
  | donorBanned
  | hourlyLimitExceeded (count max_gifts : Nat)
  | dailyLimitExceeded (count max_gifts : Nat)
  | dailySpendingLimitExceeded (spent max_amount : Int)
  | tariffNotFound (tid : Nat)
  | tariffNotActive (tid : Nat)
  | recipientRequired
  | recipientNotFound (rid : Int)
  | recipientBanned
  | cannotGiftYourself
  | insufficientDailyBudget (remaining : Int)
  | internalError
  deriving DecidableEq

/-- The `result_data` dict returned on successful creation
(`gift_service.py` lines 203-213). -/
structure CreateSuccess where
  gift_id : Nat
  gift_code : String
  amount : Int
  currency : String
  tariff_name : String
  duration_days : Nat
  recipient_type : GiftRecipientType
  status : GiftStatus
  deriving DecidableEq

/-- `gift_service.py` `GiftService.create_gift` (lines 55-220): the fail-fast
validation pipeline (donor, hourly limit, daily limit, spending limit, tariff,
direct-recipient checks, self-gift, remaining budget) followed by the insert
through `create_gift_record`.  `fresh_code` stands for the code drawn by
`generate_unique_gift_code`.  Any exception from the DAL is caught, the
session is rolled back (the original store is returned) and the call reports
`internalError`. -/
def create_gift (s : GiftStore) (now : Nat) (fresh_code : String)
    (donor_id : Int) (tariff_id : Nat) (recipient_type : GiftRecipientType)
    (idempotency_key : String) (recipient_user_id : Option Int)
    (message_to_recipient : Option String) (metadata : Option String) :
    GiftStore × Except CreateError CreateSuccess :=
  match GiftDal.get_user_by_id s donor_id with
  | none => (s, Except.error CreateError.donorNotFound)
  | some donor =>
      if donor.is_banned then (s, Except.error CreateError.donorBanned)
      else
        let hourly := GiftDal.check_user_gift_rate_limit s now donor_id 1 MAX_GIFTS_PER_HOUR
        if ¬ hourly.1 then
          (s, Except.error (CreateError.hourlyLimitExceeded hourly.2 MAX_GIFTS_PER_HOUR))
        else
          let daily := GiftDal.check_user_gift_rate_limit s now donor_id 24 MAX_GIFTS_PER_DAY
          if ¬ daily.1 then
            (s, Except.error (CreateError.dailyLimitExceeded daily.2 MAX_GIFTS_PER_DAY))
          else
            let spend := GiftDal.check_user_daily_gift_spending s now donor_id MAX_DAILY_SPENDING
            if ¬ spend.1 then
              (s, Except.error (CreateError.dailySpendingLimitExceeded spend.2 MAX_DAILY_SPENDING))
            else
              match GiftDal.get_tariff_by_id s tariff_id with
              | none => (s, Except.error (CreateError.tariffNotFound tariff_id))
              | some tariff =>
                  if ¬ tariff.is_active then
                    (s, Except.error (CreateError.tariffNotActive tariff_id))
                  else
                    let recipientStage : Option CreateError :=
                      match recipient_type with
                      | GiftRecipientType.random => none
                      | GiftRecipientType.direct =>
                          if ¬ truthyId recipient_user_id then
                            some CreateError.recipientRequired
                          else
                            match recipient_user_id with
                            | none => some CreateError.recipientRequired
                            | some rid =>
                                match GiftDal.get_user_by_id s rid with
                                | none => some (CreateError.recipientNotFound rid)
                                | some recipient =>
                                    if recipient.is_banned then
                                      some CreateError.recipientBanned
                                    else if donor_id = rid then
                                      some CreateError.cannotGiftYourself
                                    else none
                    match recipientStage with
                    | some e => (s, Except.error e)
                    | none =>
                        let remaining_budget := MAX_DAILY_SPENDING - spend.2
                        if tariff.price > remaining_budget then
                          (s, Except.error (CreateError.insufficientDailyBudget remaining_budget))
                        else
                          let d : GiftDal.GiftData :=
                            { donor_user_id := donor_id
                              recipient_type := recipient_type
                              tariff_id := tariff_id
                              duration_days := tariff.duration_days
                              amount := tariff.price
                              currency := tariff.currency
                              idempotency_key := idempotency_key
                              recipient_user_id :=
                                if truthyId recipient_user_id then recipient_user_id else none
                              message_to_recipient :=
                                if truthyStr message_to_recipient then message_to_recipient else none
                              metadata :=
                                if truthyStr metadata then metadata else none }
                          match GiftDal.create_gift_record s now fresh_code d with
                          | Except.error _ => (s, Except.error CreateError.internalError)
                          | Except.ok (s1, g) =>
                              (s1, Except.ok
                                { gift_id := g.gift_id
                                  gift_code := g.gift_code
                                  amount := g.amount
                                  currency := g.currency
                                  tariff_name := tariff.name
                                  duration_days := g.duration_days
                                  recipient_type := g.recipient_type
                                  status := g.status })

/-- The failure messages of `GiftService.activate_gift`. -/
inductive ActivateError
  | validation (e : GiftDal.ValidateError)
  | dalActivation (e : GiftDal.ActivateDalError)
  | tariffNotFound
  | subscriptionFailed
  deriving DecidableEq

/-- The `result_data` dict returned on successful activation
(`gift_service.py` lines 314-321); the subscription fields come from the
external collaborator and are not modelled. -/
structure ActivateSuccess where
  gift_id : Nat
  donor_username : Option String
  message_from_donor : Option String
  deriving DecidableEq

deriving instance DecidableEq for Except

/-- Result of one service call together with the committed store it leaves
behind and the database events it emitted. -/
structure OpResult (ε α : Type) where
  store : GiftStore
  result : Except ε α
  events : List DbEvent
  deriving DecidableEq

/-- `gift_service.py` `GiftService.activate_gift` (lines 222-328): validates
the code through the locking DAL routine, performs the DAL activation, then —
still inside the open transaction — invokes the external
subscription-activation capability (modelled by the oracle `subscription_ok`),
and only then commits; every failure after validation triggers
`session.rollback()`, restoring the store current at entry.  On a validation
failure the method neither commits nor rolls back; the returned store is the
flushed session state (the `DBSessionMiddleware` commits it afterwards), which
matters because the lazy-expiry write happens on that path. -/
def activate_gift (s : GiftStore) (now : Nat) (gift_code : String)
    (activating_user_id : Int) (subscription_ok : Bool) :
    OpResult ActivateError ActivateSuccess :=
  match GiftDal.validate_gift_code_for_activation s now gift_code activating_user_id with
  | (s1, giftOpt, errOpt, ev1) =>
      match errOpt with
      | some e => { store := s1, result := Except.error (ActivateError.validation e), events := ev1 }
      | none =>
          match giftOpt with
          | none =>
              { store := s1
                result := Except.error (ActivateError.validation GiftDal.ValidateError.invalidCode)
                events := ev1 }
          | some gift =>
              match GiftDal.activate_gift s1 now gift.gift_id activating_user_id with
              | (s2, _, actErr) =>
                  match actErr with
                  | some e =>
                      { store := s
                        result := Except.error (ActivateError.dalActivation e)
                        events := ev1 ++ [DbEvent.rollbackTx] }
                  | none =>
                      match GiftDal.get_tariff_by_id s2 gift.tariff_id with
                      | none =>
                          { store := s
                            result := Except.error ActivateError.tariffNotFound
                            events := ev1 ++ [DbEvent.rollbackTx] }
                      | some _ =>
                          let ev2 := ev1 ++ [DbEvent.subscriptionCall activating_user_id gift.tariff_id]
                          if subscription_ok then
                            { store := s2
                              result := Except.ok
                                { gift_id := gift.gift_id
                                  donor_username := gift.donor_username
                                  message_from_donor := gift.message_to_recipient }
                              events := ev2 ++ [DbEvent.commitTx] }
                          else
                            { store := s
                              result := Except.error ActivateError.subscriptionFailed
                              events := ev2 ++ [DbEvent.rollbackTx] }

/-- The failure messages of `GiftService.process_gift_payment`. -/
inductive PaymentError
  | giftNotFound
  | wrongStatus (st : GiftStatus)
  | updateFailed
  deriving DecidableEq

/-- The `result_data` dict returned on successful payment processing
(`gift_service.py` lines 388-394). -/
structure PaymentSuccess where
  gift_id : Nat
  gift_code : String
  status : GiftStatus
  paid_at : Option Nat
  expires_at : Option Nat
  deriving DecidableEq

/-- `gift_service.py` `GiftService.process_gift_payment` (lines 330-401): the
`markPaid` driver of the payment webhook.  Looks the gift up by payment
correlation, skips (reporting `wrongStatus`) if the status is already past
`pending_payment`, otherwise marks it paid through the DAL and commits. -/
def process_gift_payment (s : GiftStore) (now : Nat) (payment_id : Nat) :
    GiftStore × Except PaymentError PaymentSuccess :=
  match GiftDal.get_gift_by_payment_id s payment_id with
  | none => (s, Except.error PaymentError.giftNotFound)
  | some g =>
      if g.status ≠ GiftStatus.pending_payment then
        (s, Except.error (PaymentError.wrongStatus g.status))
      else
        match GiftDal.mark_gift_as_paid s now g.gift_id payment_id with
        | (s1, some ug) =>
            (s1, Except.ok
              { gift_id := ug.gift_id
                gift_code := ug.gift_code
                status := ug.status
                paid_at := ug.paid_at
                expires_at := ug.expires_at })
        | (_, none) => (s, Except.error PaymentError.updateFailed)

/-- The preview returned by `GiftService.validate_gift_code`
(`gift_service.py` lines 439-448). -/
structure ValidatePreview where
  gift_id : Nat
  recipient_type : GiftRecipientType
  tariff_name : String
  duration_days : Nat
  donor_username : Option String
  message_from_donor : Option String
  expires_at : Option Nat
  deriving DecidableEq

/-- `gift_service.py` `GiftService.validate_gift_code` (lines 403-454): the
read-only preview.  It delegates to the same
`validate_gift_code_for_activation` DAL routine as activation — including its
`SELECT ... FOR UPDATE` and its lazy-expiry write — and returns the preview
data; the method itself neither commits nor rolls back (the middleware commits
the flushed state afterwards). -/
def validate_gift_code (s : GiftStore) (now : Nat) (gift_code : String)
    (user_id : Int) : OpResult GiftDal.ValidateError ValidatePreview :=
  match GiftDal.validate_gift_code_for_activation s now gift_code user_id with
  | (s1, giftOpt, errOpt, ev) =>
      match errOpt with
      | some e => { store := s1, result := Except.error e, events := ev }
      | none =>
          match giftOpt with
          | none =>
              { store := s1
                result := Except.error GiftDal.ValidateError.invalidCode
                events := ev }
          | some g =>
              let tariff_name :=
                match GiftDal.get_tariff_by_id s1 g.tariff_id with
                | some t => t.name
                | none => "Unknown"
              { store := s1
                result := Except.ok
                  { gift_id := g.gift_id
                    recipient_type := g.recipient_type
                    tariff_name := tariff_name
                    duration_days := g.duration_days
                    donor_username := g.donor_username
                    message_from_donor := g.message_to_recipient
                    expires_at := g.expires_at }
                events := ev }

/-- The failure messages of `GiftService.cancel_gift`. -/
inductive CancelError
  | giftNotFound
  | notAuthorized
  | dal (e : GiftDal.CancelDalError)
  deriving DecidableEq

/-- The `result_data` dict returned on successful cancellation
(`gift_service.py` lines 514-519). -/
structure CancelSuccess where
  gift_id : Nat
  gift_code : String
  status : GiftStatus
  cancelled_at : Option Nat
  deriving DecidableEq

/-- `gift_service.py` `GiftService.cancel_gift` (lines 456-526): fetches the
gift with the plain `get_gift_by_id` (no `SELECT ... FOR UPDATE` — hence no
`DbEvent.lockRow`), authorizes the donor or an admin, cancels through the DAL
and commits. -/
def cancel_gift (s : GiftStore) (now : Nat) (gift_id : Nat)
    (cancelling_user_id : Int) (is_admin : Bool) :
    OpResult CancelError CancelSuccess :=
  match GiftDal.get_gift_by_id s gift_id with
  | none => { store := s, result := Except.error CancelError.giftNotFound, events := [] }
  | some g =>
      if ¬ is_admin ∧ g.donor_user_id ≠ cancelling_user_id then
        { store := s, result := Except.error CancelError.notAuthorized, events := [] }
      else
        match GiftDal.cancel_gift s now gift_id g.donor_user_id with
        | (s1, cgOpt, errOpt) =>
            match errOpt with
            | some e =>
                { store := s1, result := Except.error (CancelError.dal e), events := [] }
            | none =>
                match cgOpt with
                | none =>
                    { store := s1
                      result := Except.error (CancelError.dal GiftDal.CancelDalError.giftNotFound)
                      events := [] }
                | some cg =>
                    { store := s1
                      result := Except.ok
                        { gift_id := cg.gift_id
                          gift_code := cg.gift_code
                          status := cg.status
                          cancelled_at := cg.cancelled_at }
                      events := [DbEvent.commitTx] }

/-- Serialized execution of several `activateGift` calls for the same code.
The `SELECT ... FOR UPDATE` row lock serializes concurrent redemption attempts
(each waiter resumes only after the winner's transaction has committed), so N
concurrent calls are modelled as the same N calls run in lock-grant order,
each one seeing the store the previous call left behind. -/
def runActivations (s : GiftStore) (now : Nat) (code : String)
    (subscription_ok : Bool) :
    List Int → GiftStore × List (Except ActivateError ActivateSuccess)
  | [] => (s, [])
  | uid :: rest =>
      let r := activate_gift s now code uid subscription_ok
      let tail := runActivations r.store now code subscription_ok rest
      (tail.1, r.result :: tail.2)

/-- Outcome classifiers for the redemption-exclusivity statement: a call that
observed the `activated` outcome, and a call that received the definitive
conflict error `"This gift has already been activated"`. -/
def isActivatedOutcome : Except ActivateError ActivateSuccess → Bool
  | Except.ok _ => true
  | Except.error _ => false

/-- See `isActivatedOutcome`. -/
def isAlreadyActivatedConflict : Except ActivateError ActivateSuccess → Bool
  | Except.error (ActivateError.validation GiftDal.ValidateError.alreadyActivated) => true
  | _ => false

/-- Recipient eligibility, as checked by both `validate_gift_code_for_activation`
and `activate_gift`: a `direct` gift may only be redeemed by its fixed
recipient, a `random` gift by anyone but the donor. -/
def eligibleRedeemer (g : Gift) (uid : Int) : Prop :=
  match g.recipient_type with
  | GiftRecipientType.direct => g.recipient_user_id = some uid
  | GiftRecipientType.random => g.donor_user_id ≠ uid

instance (g : Gift) (uid : Int) : Decidable (eligibleRedeemer g uid) := by
  unfold eligibleRedeemer
  cases g.recipient_type <;> infer_instance

end GiftService

/-- Spec-side definition, following the claim wording only (for comparison
with `check_user_daily_gift_spending`): "sums the amount of the donor's
non-cancelled gifts created since midnight UTC". -/
def specDailySpendNonCancelled (s : GiftStore) (now : Nat) (uid : Int) : Int :=
  (s.gifts.filter fun g =>
      g.donor_user_id == uid &&
      decide (GiftDal.todayStartUTC now ≤ g.created_at) &&
      !(g.status == GiftStatus.cancelled)).foldl (fun acc g => acc + g.amount) 0

/-! Concrete fixtures used by the witness and counterexample theorems. -/

/-- A baseline paid, redeemable `random` gift row. -/
def baseGift : Gift :=
  { gift_id := 1
    gift_code := "GIFTCODE00000001"
    donor_user_id := 10
    donor_username := some "don"
    recipient_type := GiftRecipientType.random
    recipient_user_id := none
    recipient_username := none
    tariff_id := 1
    duration_days := 30
    payment_id := some 5
    amount := 300
    currency := "RUB"
    status := GiftStatus.ready
    created_at := 1000
    paid_at := some 2000
    activated_at := none
    expires_at := some (2000 + 90 * 86400)
    cancelled_at := none
    idempotency_key := "key1"
    message_to_recipient := some "enjoy"
    metadata := none }

/-- A baseline active tariff. -/
def baseTariff : Tariff :=
  { id := 1, name := "Pro", price := 300, currency := "RUB",
    duration_days := 30, is_active := true }

/-- Users shared by the fixtures: donor 10 and two candidate redeemers. -/
def baseUsers : List User :=
  [ { user_id := 10, username := some "don", is_banned := false },
    { user_id := 7, username := some "rec", is_banned := false },
    { user_id := 8, username := none, is_banned := false },
    { user_id := 9, username := some "other", is_banned := false } ]

/-- C1 fixture: one `ready` random gift, three eligible redeemers. -/
def c1Store : GiftStore :=
  { gifts := [baseGift], users := baseUsers, tariffs := [baseTariff], next_gift_id := 2 }

/-- C2 fixture: one `ready` random gift; the external subscription call will
be made to fail. -/
def c2Store : GiftStore :=
  { gifts := [baseGift], users := baseUsers, tariffs := [baseTariff], next_gift_id := 2 }

/-- C3 fixture gift: `ready` but with `expires_at = 2500` already past. -/
def c3Gift : Gift :=
  { baseGift with expires_at := some 2500 }

/-- C3 fixture: a `ready` gift whose `expires_at` (2500) is already in the
past at call time (3000), so the read-only preview hits the lazy-expiry
write. -/
def c3Store : GiftStore :=
  { gifts := [c3Gift], users := baseUsers, tariffs := [baseTariff], next_gift_id := 2 }

/-- C4 fixture: no gifts yet; donor 10 and an active tariff exist. -/
def c4Store : GiftStore :=
  { gifts := [], users := baseUsers, tariffs := [baseTariff], next_gift_id := 1 }

/-- C5 fixture gift: already `activated` (a terminal state). -/
def c5Gift : Gift :=
  { baseGift with
    status := GiftStatus.activated
    activated_at := some 2500
    recipient_user_id := some 7 }

/-- C5 fixture: one already-`activated` gift (a terminal state). -/
def c5Store : GiftStore :=
  { gifts := [c5Gift], users := baseUsers, tariffs := [baseTariff], next_gift_id := 2 }

/-- C6 fixture: one `ready` gift cancellable by its donor 10. -/
def c6Store : GiftStore :=
  { gifts := [baseGift], users := baseUsers, tariffs := [baseTariff], next_gift_id := 2 }

/-- C6 fixture gift: already redeemed before the donor tries to cancel. -/
def c6ActGift : Gift :=
  { baseGift with
    status := GiftStatus.activated
    activated_at := some 2500
    recipient_user_id := some 7 }

/-- C6 fixture: the gift has already reached `activated` when the donor's
cancellation runs. -/
def c6ActStore : GiftStore :=
  { gifts := [c6ActGift], users := baseUsers, tariffs := [baseTariff], next_gift_id := 2 }

/-- C7 counterexample fixture gift: an `expired` gift of amount 9800 created
today by donor 10. -/
def c7Gift : Gift :=
  { baseGift with
    gift_id := 3
    gift_code := "OLDGIFT000000003"
    idempotency_key := "keyOld"
    amount := 9800
    status := GiftStatus.expired
    payment_id := none
    created_at := 86400 * 100 + 500 }

/-- C7 counterexample fixture: the claim's non-cancelled sum sees the 9800,
the code's status filter sees 0. -/
def c7Store : GiftStore :=
  { gifts := [c7Gift], users := baseUsers, tariffs := [baseTariff], next_gift_id := 4 }

/-- Call time for the C7 fixtures: late enough in day 100 that the morning
gift counts as created today but outside no rate-limit window issues arise. -/
def c7now : Nat := 86400 * 100 + 1000

/-- C7 witness fixture gift: 9700 already committed today by donor 10. -/
def c7wGift : Gift :=
  { baseGift with
    gift_id := 3
    gift_code := "OLDGIFT000000003"
    idempotency_key := "keyOld"
    amount := 9700
    status := GiftStatus.pending_payment
    payment_id := none
    created_at := 86400 * 100 + 500 }

/-- C7 witness fixture (the spec §8 numbers): donor 10 has 9700 already spent
today; a price-250 tariff fits the remaining budget of 300, leaving 50. -/
def c7wStore : GiftStore :=
  { gifts := [c7wGift], users := baseUsers,
    tariffs := [{ baseTariff with id := 2, price := 250 }],
    next_gift_id := 4 }

/-- C7 fixture gift: the donor has already committed the whole 10000 cap
today on a pending gift. -/
def c7capGift : Gift :=
  { baseGift with
    gift_id := 3
    gift_code := "OLDGIFT000000003"
    idempotency_key := "keyOld"
    amount := 10000
    status := GiftStatus.pending_payment
    payment_id := none
    created_at := 86400 * 100 + 500 }

/-- C7 fixture: the daily cap is already reached, so the pre-check rejection
fires — its message carries the spent amount and the cap, not the remaining
budget. -/
def c7capStore : GiftStore :=
  { gifts := [c7capGift], users := baseUsers, tariffs := [baseTariff], next_gift_id := 4 }

/-- C8 fixture gift: `ready` but with `expires_at = 2500` already past. -/
def c8Gift : Gift :=
  { baseGift with expires_at := some 2500 }

/-- C8 fixture: a `ready` gift with `expires_at = 2500`, redeemed at
`now = 3000`. -/
def c8Store : GiftStore :=
  { gifts := [c8Gift], users := baseUsers, tariffs := [baseTariff], next_gift_id := 2 }

/-- C9 fixture gift: still awaiting payment, correlated with payment 5. -/
def c9Gift : Gift :=
  { baseGift with
    status := GiftStatus.pending_payment
    paid_at := none
    expires_at := none }

/-- C9 fixture: a `pending_payment` gift correlated with payment 5. -/
def c9Store : GiftStore :=
  { gifts := [c9Gift], users := baseUsers, tariffs := [baseTariff], next_gift_id := 2 }

/-- C10 fixture: an empty store; creation by the unknown donor 99 fails. -/
def c10Store : GiftStore :=
  { gifts := [], users := baseUsers, tariffs := [baseTariff], next_gift_id := 1 }

/-! Generic lemmas about `find?` over keyed lists: how a row lookup behaves
on a table whose rows were just rewritten by an update. -/

theorem list_find?_map_of_key {α β : Type} [DecidableEq β] (key : α → β)
    (F : α → α) (hF : ∀ x, key (F x) = key x) :
    ∀ (l : List α), (l.map key).Nodup → ∀ g ∈ l,
      (l.map F).find? (fun x => key x == key g) = some (F g) := by
  intro l
  induction l with
  | nil => intro _ g hg; cases hg
  | cons a t ih =>
      intro hnd g hg
      rw [List.map_cons, List.nodup_cons] at hnd
      rcases List.mem_cons.mp hg with rfl | hg'
      · rw [List.map_cons]
        rw [List.find?_cons_of_pos _ (by simp [hF])]
      · have hne : key a ≠ key g := by
          intro h
          exact hnd.1 (h ▸ List.mem_map_of_mem key hg')
        rw [List.map_cons]
        rw [List.find?_cons_of_neg _ (by simp [hF, hne])]
        exact ih hnd.2 g hg'

theorem list_find?_map_update {α β γ : Type} [DecidableEq β] [DecidableEq γ]
    (key : α → β) (code : α → γ) (f : α → α) :
    ∀ (l : List α), (l.map key).Nodup → ∀ g : α,
      l.find? (fun x => code x == code g) = some g →
      code (f g) = code g →
      (l.map fun x => if key x == key g then f x else x).find?
          (fun x => code x == code g) = some (f g) := by
  intro l
  induction l with
  | nil => intro _ g h _; simp at h
  | cons a t ih =>
      intro hnd g hfind hcode
      rw [List.map_cons, List.nodup_cons] at hnd
      by_cases hpa : (code a == code g) = true
      · rw [List.find?_cons_of_pos _ (by exact hpa)] at hfind
        have ha : a = g := by injection hfind
        subst ha
        rw [List.map_cons, if_pos (by simp)]
        rw [List.find?_cons_of_pos _ (by simp [hcode])]
      · rw [List.find?_cons_of_neg _ (by exact hpa)] at hfind
        have hg' : g ∈ t := List.mem_of_find?_eq_some hfind
        have hka : key a ≠ key g := fun h => hnd.1 (h ▸ List.mem_map_of_mem key hg')
        rw [List.map_cons, if_neg (by simpa using hka),
          List.find?_cons_of_neg _ (by exact hpa)]
        exact ih hnd.2 g hfind hcode

theorem countP_replicate {α : Type} (p : α → Bool) (n : Nat) (a : α) :
    (List.replicate n a).countP p = if p a then n else 0 := by
  induction n with
  | zero => simp
  | succ n ih =>
      rw [List.replicate_succ, List.countP_cons, ih]
      by_cases h : p a = true <;> simp [h]

/-! Lookup lemmas for `GiftStore`. -/

theorem gift_mem_of_get_by_code {s : GiftStore} {code : String} {g : Gift}
    (h : GiftDal.get_gift_by_code s code = some g) :
    g ∈ s.gifts ∧ g.gift_code = code := by
  unfold GiftDal.get_gift_by_code at h
  refine ⟨List.mem_of_find?_eq_some h, ?_⟩
  simpa using List.find?_some h

theorem gift_mem_of_get_by_id {s : GiftStore} {gid : Nat} {g : Gift}
    (h : GiftDal.get_gift_by_id s gid = some g) :
    g ∈ s.gifts ∧ g.gift_id = gid := by
  unfold GiftDal.get_gift_by_id at h
  refine ⟨List.mem_of_find?_eq_some h, ?_⟩
  simpa using List.find?_some h

theorem gift_mem_of_get_by_payment {s : GiftStore} {pid : Nat} {g : Gift}
    (h : GiftDal.get_gift_by_payment_id s pid = some g) :
    g ∈ s.gifts ∧ g.payment_id = some pid := by
  unfold GiftDal.get_gift_by_payment_id at h
  refine ⟨List.mem_of_find?_eq_some h, ?_⟩
  simpa using List.find?_some h

theorem get_gift_by_id_of_mem {s : GiftStore}
    (hnd : (s.gifts.map Gift.gift_id).Nodup) {g : Gift} (hg : g ∈ s.gifts) :
    GiftDal.get_gift_by_id s g.gift_id = some g := by
  unfold GiftDal.get_gift_by_id
  have h := list_find?_map_of_key Gift.gift_id id (fun _ => rfl) s.gifts hnd g hg
  simpa using h

theorem get_gift_by_id_putGift {s : GiftStore}
    (hnd : (s.gifts.map Gift.gift_id).Nodup) {g : Gift} (hg : g ∈ s.gifts)
    (gid : Nat) (f : Gift → Gift) (hf : ∀ x, (f x).gift_id = x.gift_id) :
    GiftDal.get_gift_by_id (GiftDal.putGift s gid f) g.gift_id =
      some (if g.gift_id == gid then f g else g) := by
  unfold GiftDal.get_gift_by_id GiftDal.putGift
  have hkey : ∀ x : Gift,
      ((if x.gift_id == gid then f x else x) : Gift).gift_id = x.gift_id := by
    intro x
    by_cases h : (x.gift_id == gid) = true <;> simp [h, hf]
  have h := list_find?_map_of_key Gift.gift_id
    (fun x => if x.gift_id == gid then f x else x) hkey s.gifts hnd g hg
  simpa using h

theorem get_gift_by_code_putGift {s : GiftStore}
    (hnd : (s.gifts.map Gift.gift_id).Nodup) {code : String} {g : Gift}
    (h : GiftDal.get_gift_by_code s code = some g)
    (f : Gift → Gift) (hfc : (f g).gift_code = g.gift_code) :
    GiftDal.get_gift_by_code (GiftDal.putGift s g.gift_id f) code = some (f g) := by
  obtain ⟨_, hcode⟩ := gift_mem_of_get_by_code h
  subst hcode
  unfold GiftDal.get_gift_by_code at h ⊢
  unfold GiftDal.putGift
  exact list_find?_map_update Gift.gift_id Gift.gift_code f s.gifts hnd g h hfc

/-! Behaviour of the locked validation + activation path. -/

theorem validate_dal_not_ready {s : GiftStore} {now : Nat} {code : String}
    {uid : Int} {g : Gift} (h : GiftDal.get_gift_by_code s code = some g)
    (hst : g.status ≠ GiftStatus.ready) :
    GiftDal.validate_gift_code_for_activation s now code uid =
      (s, some g, some (GiftDal.statusError g.status), [DbEvent.lockRow code]) := by
  unfold GiftDal.validate_gift_code_for_activation
  rw [h]
  simp [hst]

theorem validate_dal_success {s : GiftStore} {now : Nat} {code : String}
    {uid : Int} {g : Gift} (h : GiftDal.get_gift_by_code s code = some g)
    (hst : g.status = GiftStatus.ready) (hexp : GiftDal.expiresBefore g now = false)
    (hel : GiftService.eligibleRedeemer g uid) :
    GiftDal.validate_gift_code_for_activation s now code uid =
      (s, some g, none, [DbEvent.lockRow code]) := by
  unfold GiftDal.validate_gift_code_for_activation
  rw [h]
  unfold GiftService.eligibleRedeemer at hel
  cases hrt : g.recipient_type with
  | direct =>
      rw [hrt] at hel
      simp [hst, hexp, hrt, hel]
  | random =>
      rw [hrt] at hel
      simp [hst, hexp, hrt, hel]

theorem activate_dal_success {s : GiftStore} {now : Nat} {uid : Int} {g : Gift}
    (hnd : (s.gifts.map Gift.gift_id).Nodup) (hg : g ∈ s.gifts)
    (hst : g.status = GiftStatus.ready) (hexp : GiftDal.expiresBefore g now = false)
    (hel : GiftService.eligibleRedeemer g uid) :
    ∃ pre : Gift → Gift,
      (∀ x, (pre x).gift_id = x.gift_id) ∧
      (∀ x, (pre x).gift_code = x.gift_code) ∧
      GiftDal.activate_gift s now g.gift_id uid =
        (GiftDal.putGift s g.gift_id fun g0 => GiftDal.activationFields now (pre g0),
         GiftDal.get_gift_by_id
           (GiftDal.putGift s g.gift_id fun g0 => GiftDal.activationFields now (pre g0))
           g.gift_id,
         none) := by
  have hid := get_gift_by_id_of_mem hnd hg
  unfold GiftService.eligibleRedeemer at hel
  cases hrt : g.recipient_type with
  | direct =>
      rw [hrt] at hel
      refine ⟨id, fun _ => rfl, fun _ => rfl, ?_⟩
      unfold GiftDal.activate_gift
      rw [hid]
      simp [hst, hexp, hrt, hel]
  | random =>
      rw [hrt] at hel
      refine ⟨GiftDal.assignRecipient s uid, fun _ => rfl, fun _ => rfl, ?_⟩
      unfold GiftDal.activate_gift
      rw [hid]
      simp [hst, hexp, hrt, hel]

theorem activate_service_success {s : GiftStore} {now : Nat} {code : String}
    {uid : Int} {g : Gift} (hWF : s.WF)
    (h : GiftDal.get_gift_by_code s code = some g)
    (hst : g.status = GiftStatus.ready) (hexp : GiftDal.expiresBefore g now = false)
    (hel : GiftService.eligibleRedeemer g uid)
    (ht : (GiftDal.get_tariff_by_id s g.tariff_id).isSome = true) :
    (GiftService.activate_gift s now code uid true).result =
      Except.ok
        { gift_id := g.gift_id
          donor_username := g.donor_username
          message_from_donor := g.message_to_recipient } ∧
    ∃ g2, GiftDal.get_gift_by_code
        (GiftService.activate_gift s now code uid true).store code = some g2 ∧
      g2.status = GiftStatus.activated := by
  obtain ⟨hmem, _⟩ := gift_mem_of_get_by_code h
  obtain ⟨pre, hpid, hpcode, hdal⟩ := activate_dal_success hWF.1 hmem hst hexp hel
  have hval := validate_dal_success h hst hexp hel
  obtain ⟨t, ht2⟩ := Option.isSome_iff_exists.mp ht
  have ht3 : GiftDal.get_tariff_by_id
      (GiftDal.putGift s g.gift_id fun g0 => GiftDal.activationFields now (pre g0))
      g.tariff_id = some t := ht2
  unfold GiftService.activate_gift
  rw [hval]
  simp only []
  rw [hdal]
  simp only []
  rw [ht3]
  refine ⟨rfl, ⟨GiftDal.activationFields now (pre g), ?_, rfl⟩⟩
  simp only []
  exact get_gift_by_code_putGift hWF.1 h
    (fun g0 => GiftDal.activationFields now (pre g0)) (hpcode g)

theorem activate_service_already_activated {s : GiftStore} {now : Nat}
    {code : String} {uid : Int} {subOk : Bool} {g : Gift}
    (h : GiftDal.get_gift_by_code s code = some g)
    (hst : g.status = GiftStatus.activated) :
    GiftService.activate_gift s now code uid subOk =
      { store := s
        result := Except.error (GiftService.ActivateError.validation
          GiftDal.ValidateError.alreadyActivated)
        events := [DbEvent.lockRow code] } := by
  have hval := @validate_dal_not_ready s now code uid g h (by rw [hst]; simp)
  unfold GiftService.activate_gift
  rw [hval]
  rw [hst]
  simp [GiftDal.statusError]

theorem runActivations_all_conflict {now : Nat} {code : String} {subOk : Bool} :
    ∀ (uids : List Int) (st : GiftStore) (g2 : Gift),
      GiftDal.get_gift_by_code st code = some g2 →
      g2.status = GiftStatus.activated →
      GiftService.runActivations st now code subOk uids =
        (st, List.replicate uids.length
          (Except.error (GiftService.ActivateError.validation
            GiftDal.ValidateError.alreadyActivated))) := by
  intro uids
  induction uids with
  | nil => intro st g2 _ _; rfl
  | cons u rest ih =>
      intro st g2 h hst
      have hr := @activate_service_already_activated st now code u subOk g2 h hst
      have h1 : (GiftService.activate_gift st now code u subOk).store = st := by
        rw [hr]
      have h2 : (GiftService.activate_gift st now code u subOk).result =
          Except.error (GiftService.ActivateError.validation
            GiftDal.ValidateError.alreadyActivated) := by
        rw [hr]
      unfold GiftService.runActivations
      simp only []
      rw [h1, h2, ih st g2 h hst]
      simp [List.replicate_succ]

/-- Claim C1: for every gift record in status `ready`, N `activateGift` calls
with the same gift code — serialized by the `SELECT ... FOR UPDATE` row lock
into lock-grant order, which is how the store executes concurrent attempts —
result in exactly one call observing the `activated` outcome while the other
N−1 calls receive the definitive conflict error `"This gift has already been
activated"`; in particular two attempts to redeem the same code never both
succeed. -/
theorem C1_redemption_exclusivity (s : GiftStore) (now : Nat) (code : String)
    (uids : List Int) (g : Gift) (hWF : s.WF)
    (h : GiftDal.get_gift_by_code s code = some g)
    (hst : g.status = GiftStatus.ready)
    (hexp : GiftDal.expiresBefore g now = false)
    (hel : ∀ uid ∈ uids, GiftService.eligibleRedeemer g uid)
    (ht : (GiftDal.get_tariff_by_id s g.tariff_id).isSome = true)
    (hne : uids ≠ []) :
    ((GiftService.runActivations s now code true uids).2.countP
        GiftService.isActivatedOutcome) = 1 ∧
    ((GiftService.runActivations s now code true uids).2.countP
        GiftService.isAlreadyActivatedConflict) = uids.length - 1 := by
  cases uids with
  | nil => cases hne rfl
  | cons u rest =>
      obtain ⟨hres, g2, hg2, hg2s⟩ :=
        activate_service_success hWF h hst hexp (hel u (by simp)) ht
      have hrest := @runActivations_all_conflict now code true rest
        (GiftService.activate_gift s now code u true).store g2 hg2 hg2s
      unfold GiftService.runActivations
      simp only []
      rw [hres, hrest]
      constructor
      · simp [List.countP_cons, countP_replicate, GiftService.isActivatedOutcome,
          GiftService.isAlreadyActivatedConflict]
      · simp [List.countP_cons, countP_replicate, GiftService.isActivatedOutcome,
          GiftService.isAlreadyActivatedConflict]

/-- Witness for C1 at the concrete fixture: three eligible redeemers 7, 8, 9
race for the one `ready` gift; one wins, two get the conflict. -/
theorem C1_redemption_exclusivity_witness :
    ((GiftService.runActivations c1Store 3000 "GIFTCODE00000001" true [7, 8, 9]).2.countP
        GiftService.isActivatedOutcome) = 1 ∧
    ((GiftService.runActivations c1Store 3000 "GIFTCODE00000001" true [7, 8, 9]).2.countP
        GiftService.isAlreadyActivatedConflict) = 2 :=
  C1_redemption_exclusivity c1Store 3000 "GIFTCODE00000001" [7, 8, 9] baseGift
    (by decide) (by decide) rfl rfl (by decide) (by decide) (by decide)

theorem validate_dal_lazy_expiry {s : GiftStore} {now : Nat} {code : String}
    {uid : Int} {g : Gift} (h : GiftDal.get_gift_by_code s code = some g)
    (hst : g.status = GiftStatus.ready)
    (hexpb : GiftDal.expiresBefore g now = true) :
    GiftDal.validate_gift_code_for_activation s now code uid =
      ((GiftDal.update_gift_status s g.gift_id GiftStatus.expired).1,
       some (GiftDal.expireField g), some GiftDal.ValidateError.hasExpired,
       [DbEvent.lockRow code]) := by
  unfold GiftDal.validate_gift_code_for_activation
  rw [h]
  simp [hst, hexpb]

/-- Claim C8: a `ready` gift whose `expires_at` lies in the past is not
activated by `activateGift`: while holding the row lock the attempt
transitions the record to `expired` and returns the expiry error
`"This gift has expired"`. -/
theorem C8_lazy_expiry_on_activate (s : GiftStore) (now : Nat) (code : String)
    (uid : Int) (subOk : Bool) (g : Gift) (te : Nat) (hWF : s.WF)
    (h : GiftDal.get_gift_by_code s code = some g)
    (hst : g.status = GiftStatus.ready)
    (hexp : g.expires_at = some te) (hlt : te < now) :
    (GiftService.activate_gift s now code uid subOk).result =
      Except.error (GiftService.ActivateError.validation
        GiftDal.ValidateError.hasExpired) ∧
    GiftDal.get_gift_by_id
        (GiftService.activate_gift s now code uid subOk).store g.gift_id =
      some (GiftDal.expireField g) := by
  obtain ⟨hmem, _⟩ := gift_mem_of_get_by_code h
  have hid := get_gift_by_id_of_mem hWF.1 hmem
  have hexpb : GiftDal.expiresBefore g now = true := by
    unfold GiftDal.expiresBefore
    rw [hexp]
    simpa using hlt
  have hval := @validate_dal_lazy_expiry s now code uid g h hst hexpb
  unfold GiftService.activate_gift
  rw [hval]
  refine ⟨rfl, ?_⟩
  unfold GiftDal.update_gift_status
  rw [hid]
  simp only []
  have hput := get_gift_by_id_putGift hWF.1 hmem g.gift_id
    (fun g0 => { g0 with status := GiftStatus.expired }) (fun _ => rfl)
  simpa [GiftDal.expireField] using hput

/-- Witness for C8 at the concrete fixture: the gift expired at 2500, the
redemption attempt at 3000 fails with the expiry error and marks the row
`expired`. -/
theorem C8_lazy_expiry_on_activate_witness :
    (GiftService.activate_gift c8Store 3000 "GIFTCODE00000001" 7 true).result =
      Except.error (GiftService.ActivateError.validation
        GiftDal.ValidateError.hasExpired) ∧
    GiftDal.get_gift_by_id
        (GiftService.activate_gift c8Store 3000 "GIFTCODE00000001" 7 true).store 1 =
      some (GiftDal.expireField c8Gift) :=
  C8_lazy_expiry_on_activate c8Store 3000 "GIFTCODE00000001" 7 true c8Gift 2500
    (by decide) (by decide) rfl rfl (by decide)

/-- Counterexample to C2: with the `ready` fixture gift and a failing external
subscription-activation call, the orchestrator rolls the whole transaction
back — afterwards the gift is still `ready`, not `activated` as the claim
requires, and the distinct error is returned from inside the transaction. -/
theorem C2_counterexample :
    (GiftService.activate_gift c2Store 3000 "GIFTCODE00000001" 7 false).store = c2Store ∧
    (GiftService.activate_gift c2Store 3000 "GIFTCODE00000001" 7 false).result =
      Except.error GiftService.ActivateError.subscriptionFailed ∧
    (GiftDal.get_gift_by_id
        (GiftService.activate_gift c2Store 3000 "GIFTCODE00000001" 7 false).store 1).map
      Gift.status = some GiftStatus.ready := by
  decide

/-- Claim C2, amended to the code: the external subscription-activation
capability is invoked inside the still-open transaction, after the DAL
activation write but before the commit; if the external call fails, the
session is rolled back — the gift does not remain `activated` but returns to
`ready`, i.e. the code is not spent — and the failure is surfaced as the
distinct error `"Failed to activate subscription"`.  Only when the external
call succeeds does the commit follow it. -/
theorem C2_amended_external_call_inside_transaction (s : GiftStore) (now : Nat)
    (code : String) (uid : Int) (g : Gift) (hWF : s.WF)
    (h : GiftDal.get_gift_by_code s code = some g)
    (hst : g.status = GiftStatus.ready)
    (hexp : GiftDal.expiresBefore g now = false)
    (hel : GiftService.eligibleRedeemer g uid)
    (ht : (GiftDal.get_tariff_by_id s g.tariff_id).isSome = true) :
    ((GiftService.activate_gift s now code uid false).store = s ∧
     (GiftService.activate_gift s now code uid false).result =
       Except.error GiftService.ActivateError.subscriptionFailed ∧
     (GiftService.activate_gift s now code uid false).events =
       [DbEvent.lockRow code, DbEvent.subscriptionCall uid g.tariff_id,
        DbEvent.rollbackTx]) ∧
    (GiftService.activate_gift s now code uid true).events =
      [DbEvent.lockRow code, DbEvent.subscriptionCall uid g.tariff_id,
       DbEvent.commitTx] := by
  obtain ⟨hmem, _⟩ := gift_mem_of_get_by_code h
  obtain ⟨pre, hpid, hpcode, hdal⟩ := activate_dal_success hWF.1 hmem hst hexp hel
  have hval := validate_dal_success h hst hexp hel
  obtain ⟨t, ht2⟩ := Option.isSome_iff_exists.mp ht
  have ht3 : GiftDal.get_tariff_by_id
      (GiftDal.putGift s g.gift_id fun g0 => GiftDal.activationFields now (pre g0))
      g.tariff_id = some t := ht2
  constructor
  · unfold GiftService.activate_gift
    rw [hval]
    simp only []
    rw [hdal]
    simp only []
    rw [ht3]
    exact ⟨rfl, rfl, rfl⟩
  · unfold GiftService.activate_gift
    rw [hval]
    simp only []
    rw [hdal]
    simp only []
    rw [ht3]
    rfl

/-- Witness for the amended C2 at the concrete fixture. -/
theorem C2_amended_witness :
    ((GiftService.activate_gift c2Store 3000 "GIFTCODE00000001" 7 false).store = c2Store ∧
     (GiftService.activate_gift c2Store 3000 "GIFTCODE00000001" 7 false).result =
       Except.error GiftService.ActivateError.subscriptionFailed ∧
     (GiftService.activate_gift c2Store 3000 "GIFTCODE00000001" 7 false).events =
       [DbEvent.lockRow "GIFTCODE00000001", DbEvent.subscriptionCall 7 1,
        DbEvent.rollbackTx]) ∧
    (GiftService.activate_gift c2Store 3000 "GIFTCODE00000001" 7 true).events =
      [DbEvent.lockRow "GIFTCODE00000001", DbEvent.subscriptionCall 7 1,
       DbEvent.commitTx] :=
  C2_amended_external_call_inside_transaction c2Store 3000 "GIFTCODE00000001" 7
    baseGift (by decide) (by decide) rfl rfl (by decide) (by decide)

/-- Counterexample to C3: on a `ready` gift whose `expires_at` has passed, the
"read-only" preview `validateGiftCode` both acquires the `SELECT ... FOR
UPDATE` row lock and mutates the store (the lazy-expiry write), so the gift
store is not identical before and after the call. -/
theorem C3_counterexample :
    (GiftService.validate_gift_code c3Store 3000 "GIFTCODE00000001" 7).store ≠ c3Store ∧
    (GiftService.validate_gift_code c3Store 3000 "GIFTCODE00000001" 7).events =
      [DbEvent.lockRow "GIFTCODE00000001"] := by
  decide

theorem validate_dal_ready_not_expired {s : GiftStore} {now : Nat}
    {code : String} {uid : Int} {g : Gift}
    (h : GiftDal.get_gift_by_code s code = some g)
    (hst : g.status = GiftStatus.ready)
    (hexp : GiftDal.expiresBefore g now = false) :
    ∃ e, GiftDal.validate_gift_code_for_activation s now code uid =
      (s, some g, e, [DbEvent.lockRow code]) := by
  unfold GiftDal.validate_gift_code_for_activation
  rw [h]
  cases hrt : g.recipient_type with
  | direct =>
      by_cases hr : g.recipient_user_id = some uid
      · exact ⟨none, by simp [hst, hexp, hrt, hr]⟩
      · exact ⟨some GiftDal.ValidateError.intendedForAnotherUser,
          by simp [hst, hexp, hrt, hr]⟩
  | random =>
      by_cases hr : g.donor_user_id = uid
      · exact ⟨some GiftDal.ValidateError.cannotActivateOwnGift,
          by simp [hst, hexp, hrt, hr]⟩
      · exact ⟨none, by simp [hst, hexp, hrt, hr]⟩

/-- Claim C3, amended to the code: `validateGiftCode` delegates to the same
locking DAL routine as `activateGift` (it takes the `SELECT ... FOR UPDATE`
row lock whenever the code resolves to a row), and it mutates no state except
in one case: when the gift is `ready` but its `expires_at` has passed, the
preview itself performs the lazy-expiry write (`status = expired`) and
returns the expiry error; in every other case the store is unchanged. -/
theorem C3_amended_validate_preview (s : GiftStore) (now : Nat) (code : String)
    (uid : Int) :
    (∀ g, GiftDal.get_gift_by_code s code = some g →
      (GiftService.validate_gift_code s now code uid).events =
        [DbEvent.lockRow code]) ∧
    ((GiftService.validate_gift_code s now code uid).store = s ∨
      ∃ g, GiftDal.get_gift_by_code s code = some g ∧
        g.status = GiftStatus.ready ∧
        GiftDal.expiresBefore g now = true ∧
        (GiftService.validate_gift_code s now code uid).result =
          Except.error GiftDal.ValidateError.hasExpired ∧
        (GiftService.validate_gift_code s now code uid).store =
          (GiftDal.update_gift_status s g.gift_id GiftStatus.expired).1) := by
  cases hg : GiftDal.get_gift_by_code s code with
  | none =>
      constructor
      · intro g hg2
        cases hg2
      · left
        unfold GiftService.validate_gift_code GiftDal.validate_gift_code_for_activation
        rw [hg]
  | some g0 =>
      by_cases hst : g0.status = GiftStatus.ready
      · by_cases hexp : GiftDal.expiresBefore g0 now = true
        · have hval := @validate_dal_lazy_expiry s now code uid g0 hg hst hexp
          constructor
          · intro g hg2
            unfold GiftService.validate_gift_code
            rw [hval]
          · right
            refine ⟨g0, rfl, hst, hexp, ?_, ?_⟩ <;>
              · unfold GiftService.validate_gift_code
                rw [hval]
        · -- not expired: validate succeeds or rejects on eligibility; no write
          have hexp2 : GiftDal.expiresBefore g0 now = false := by
            simpa using hexp
          obtain ⟨e, hval⟩ := validate_dal_ready_not_expired hg hst hexp2
          constructor
          · intro g hg2
            unfold GiftService.validate_gift_code
            rw [hval]
            cases e <;> rfl
          · left
            unfold GiftService.validate_gift_code
            rw [hval]
            cases e <;> rfl
      · have hval := @validate_dal_not_ready s now code uid g0 hg hst
        constructor
        · intro g hg2
          unfold GiftService.validate_gift_code
          rw [hval]
        · left
          unfold GiftService.validate_gift_code
          rw [hval]

/-- Witness for the amended C3 at the concrete fixture: the preview takes the
row lock and performs exactly the lazy-expiry write. -/
theorem C3_amended_witness :
    (GiftService.validate_gift_code c3Store 3000 "GIFTCODE00000001" 7).events =
      [DbEvent.lockRow "GIFTCODE00000001"] ∧
    (GiftService.validate_gift_code c3Store 3000 "GIFTCODE00000001" 7).store =
      (GiftDal.update_gift_status c3Store 1 GiftStatus.expired).1 :=
  ⟨(C3_amended_validate_preview c3Store 3000 "GIFTCODE00000001" 7).1 c3Gift (by decide),
   by decide⟩

/-! Machinery for the state-machine claim: how each operation can change a
row, and how it behaves on rows in terminal states. -/

theorem terminal_ne_ready {st : GiftStatus} (h : st.isTerminal = true) :
    st ≠ GiftStatus.ready := by
  cases st <;> simp_all [GiftStatus.isTerminal]

theorem terminal_ne_pending {st : GiftStatus} (h : st.isTerminal = true) :
    st ≠ GiftStatus.pending_payment := by
  cases st <;> simp_all [GiftStatus.isTerminal]

theorem record_change_putGift {s : GiftStore}
    (hnd : (s.gifts.map Gift.gift_id).Nodup) {gid : Nat} {g g2 : Gift}
    (h : GiftDal.get_gift_by_id s gid = some g)
    (tgid : Nat) (f : Gift → Gift) (hf : ∀ x, (f x).gift_id = x.gift_id)
    (h2 : GiftDal.get_gift_by_id (GiftDal.putGift s tgid f) gid = some g2) :
    g2 = g ∨ (g2 = f g ∧ g.gift_id = tgid) := by
  obtain ⟨hmem, hgid⟩ := gift_mem_of_get_by_id h
  subst hgid
  have hput := get_gift_by_id_putGift hnd hmem tgid f hf
  rw [hput] at h2
  by_cases he : (g.gift_id == tgid) = true
  · right
    rw [if_pos he] at h2
    exact ⟨(Option.some.inj h2).symm, by simpa using he⟩
  · left
    rw [if_neg he] at h2
    exact (Option.some.inj h2).symm

theorem process_payment_store_shape (s : GiftStore) (now pid : Nat) :
    (GiftService.process_gift_payment s now pid).1 = s ∨
    ∃ tgid gp, GiftDal.get_gift_by_id s tgid = some gp ∧
      gp.status = GiftStatus.pending_payment ∧
      (GiftService.process_gift_payment s now pid).1 =
        GiftDal.putGift s tgid (GiftDal.paidFields now pid) := by
  unfold GiftService.process_gift_payment
  cases hp : GiftDal.get_gift_by_payment_id s pid with
  | none => left; rfl
  | some gp =>
      by_cases hs : gp.status ≠ GiftStatus.pending_payment
      · left; simp [hs]
      · push_neg at hs
        unfold GiftDal.mark_gift_as_paid
        cases hid : GiftDal.get_gift_by_id s gp.gift_id with
        | none => left; simp [hs, hid]
        | some g1 =>
            by_cases hs1 : g1.status ≠ GiftStatus.pending_payment
            · left; simp [hs, hid, hs1]
            · push_neg at hs1
              right
              exact ⟨gp.gift_id, g1, hid, hs1, by simp [hs, hid, hs1]⟩

theorem activate_dal_shape (s : GiftStore) (now : Nat) (gid : Nat) (uid : Int) :
    (∃ e, (GiftDal.activate_gift s now gid uid).2.2 = some e) ∨
    ∃ g1, GiftDal.get_gift_by_id s gid = some g1 ∧
      g1.status = GiftStatus.ready ∧
      ∃ f, (∀ x : Gift, (f x).gift_id = x.gift_id) ∧
        (∀ x : Gift, (f x).status = GiftStatus.activated) ∧
        (GiftDal.activate_gift s now gid uid).2.2 = none ∧
        (GiftDal.activate_gift s now gid uid).1 = GiftDal.putGift s gid f := by
  unfold GiftDal.activate_gift
  cases hid : GiftDal.get_gift_by_id s gid with
  | none => exact Or.inl ⟨GiftDal.ActivateDalError.giftNotFound, rfl⟩
  | some g1 =>
      by_cases hs1 : g1.status ≠ GiftStatus.ready
      · exact Or.inl ⟨GiftDal.ActivateDalError.notReady g1.status, by simp [hs1]⟩
      · push_neg at hs1
        by_cases hexp1 : GiftDal.expiresBefore g1 now = true
        · exact Or.inl ⟨GiftDal.ActivateDalError.hasExpired, by simp [hs1, hexp1]⟩
        · have hexp2 : GiftDal.expiresBefore g1 now = false := by simpa using hexp1
          cases hrt : g1.recipient_type with
          | direct =>
              by_cases hr : g1.recipient_user_id = some uid
              · right
                exact ⟨g1, rfl, hs1, GiftDal.activationFields now, fun _ => rfl,
                  fun _ => rfl, by simp [hs1, hexp2, hrt, hr],
                  by simp [hs1, hexp2, hrt, hr]⟩
              · exact Or.inl ⟨GiftDal.ActivateDalError.intendedForAnotherUser,
                  by simp [hs1, hexp2, hrt, hr]⟩
          | random =>
              by_cases hr : g1.donor_user_id = uid
              · exact Or.inl ⟨GiftDal.ActivateDalError.cannotActivateOwnGift,
                  by simp [hs1, hexp2, hrt, hr]⟩
              · right
                exact ⟨g1, rfl, hs1,
                  (fun g0 => GiftDal.activationFields now (GiftDal.assignRecipient s uid g0)),
                  fun _ => rfl, fun _ => rfl, by simp [hs1, hexp2, hrt, hr],
                  by simp [hs1, hexp2, hrt, hr]⟩

theorem activate_store_shape (s : GiftStore) (now : Nat) (code : String)
    (uid : Int) (subOk : Bool) :
    (GiftService.activate_gift s now code uid subOk).store = s ∨
    ∃ tgid gpre, gpre ∈ s.gifts ∧ gpre.gift_id = tgid ∧
      gpre.status = GiftStatus.ready ∧
      ((GiftService.activate_gift s now code uid subOk).store =
          GiftDal.putGift s tgid (fun g0 => { g0 with status := GiftStatus.expired }) ∨
        ∃ f, (∀ x : Gift, (f x).gift_id = x.gift_id) ∧
          (∀ x : Gift, (f x).status = GiftStatus.activated) ∧
          (GiftService.activate_gift s now code uid subOk).store =
            GiftDal.putGift s tgid f) := by
  cases hg : GiftDal.get_gift_by_code s code with
  | none =>
      left
      unfold GiftService.activate_gift GiftDal.validate_gift_code_for_activation
      rw [hg]
  | some g0 =>
      by_cases hst : g0.status = GiftStatus.ready
      · by_cases hexpb : GiftDal.expiresBefore g0 now = true
        · have hval := @validate_dal_lazy_expiry s now code uid g0 hg hst hexpb
          unfold GiftService.activate_gift
          rw [hval]
          unfold GiftDal.update_gift_status
          cases hid : GiftDal.get_gift_by_id s g0.gift_id with
          | none => left; rfl
          | some g1 =>
              right
              exact ⟨g0.gift_id, g0, (gift_mem_of_get_by_code hg).1, rfl, hst,
                Or.inl rfl⟩
        · have hexp : GiftDal.expiresBefore g0 now = false := by simpa using hexpb
          obtain ⟨e, hval⟩ := validate_dal_ready_not_expired hg hst hexp
          unfold GiftService.activate_gift
          rw [hval]
          cases e with
          | some err => left; rfl
          | none =>
              simp only []
              rcases activate_dal_shape s now g0.gift_id uid with ⟨e2, he⟩ |
                ⟨g1, hid1, hs1, f, hfid, hfst, hnone, hf⟩
              · -- the DAL reported an error: the service rolls back to `s`
                left
                have hsplit : GiftDal.activate_gift s now g0.gift_id uid =
                    ((GiftDal.activate_gift s now g0.gift_id uid).1,
                     (GiftDal.activate_gift s now g0.gift_id uid).2.1,
                     some e2) := by
                  rw [← he]
                rw [hsplit]
              · -- the DAL succeeded: commit or roll back around the external call
                have hsplit : GiftDal.activate_gift s now g0.gift_id uid =
                    (GiftDal.putGift s g0.gift_id f,
                     (GiftDal.activate_gift s now g0.gift_id uid).2.1,
                     none) := by
                  rw [← hf, ← hnone]
                rw [hsplit]
                simp only []
                cases hta : GiftDal.get_tariff_by_id
                    (GiftDal.putGift s g0.gift_id f) g0.tariff_id with
                | none => left; rfl
                | some t =>
                    cases subOk with
                    | false => left; rfl
                    | true =>
                        right
                        obtain ⟨hmem1, hgid1⟩ := gift_mem_of_get_by_id hid1
                        exact ⟨g0.gift_id, g1, hmem1, hgid1, hs1,
                          Or.inr ⟨f, hfid, hfst, rfl⟩⟩
      · have hval := @validate_dal_not_ready s now code uid g0 hg hst
        left
        unfold GiftService.activate_gift
        rw [hval]

theorem cancel_store_shape (s : GiftStore) (now : Nat) (gid : Nat) (uid : Int)
    (adm : Bool) :
    (GiftService.cancel_gift s now gid uid adm).store = s ∨
    ∃ g1, GiftDal.get_gift_by_id s gid = some g1 ∧
      (g1.status = GiftStatus.pending_payment ∨ g1.status = GiftStatus.ready) ∧
      (GiftService.cancel_gift s now gid uid adm).store =
        GiftDal.putGift s gid (GiftDal.cancelFields now) := by
  unfold GiftService.cancel_gift
  cases hid : GiftDal.get_gift_by_id s gid with
  | none => left; rfl
  | some g0 =>
      simp only []
      by_cases hauth : ¬ adm = true ∧ g0.donor_user_id ≠ uid
      · left; simp [hauth]
      · rw [if_neg hauth]
        unfold GiftDal.cancel_gift
        rw [hid]
        by_cases hsd : g0.status = GiftStatus.pending_payment ∨
            g0.status = GiftStatus.ready
        · right
          exact ⟨g0, rfl, hsd, by simp [hsd]⟩
        · left
          simp [hsd]

theorem sweep_get {s : GiftStore} (hnd : (s.gifts.map Gift.gift_id).Nodup)
    {g : Gift} (hmem : g ∈ s.gifts) (now : Nat) :
    GiftDal.get_gift_by_id (GiftDal.expire_old_gifts s now).1 g.gift_id =
      some (if g.status == GiftStatus.ready && GiftDal.expiresBefore g now then
        GiftDal.expireField g else g) := by
  unfold GiftDal.expire_old_gifts GiftDal.get_gift_by_id
  exact list_find?_map_of_key Gift.gift_id
    (fun g0 => if g0.status == GiftStatus.ready && GiftDal.expiresBefore g0 now
      then GiftDal.expireField g0 else g0)
    (fun x => by
      by_cases hx : (x.status == GiftStatus.ready && GiftDal.expiresBefore x now) = true <;>
        simp [hx, GiftDal.expireField])
    s.gifts hnd g hmem

theorem process_payment_record_change {s : GiftStore} {now pid : Nat}
    {gid : Nat} {g g2 : Gift} (hWF : s.WF)
    (h : GiftDal.get_gift_by_id s gid = some g)
    (h2 : GiftDal.get_gift_by_id
      (GiftService.process_gift_payment s now pid).1 gid = some g2) :
    g2 = g ∨ (g.status = GiftStatus.pending_payment ∧
      g2 = GiftDal.paidFields now pid g) := by
  rcases process_payment_store_shape s now pid with hsh | ⟨tgid, gp, hgp, hgps, hsh⟩
  · rw [hsh, h] at h2
    left
    exact (Option.some.inj h2).symm
  · rw [hsh] at h2
    rcases record_change_putGift hWF.1 h tgid (GiftDal.paidFields now pid)
        (fun _ => rfl) h2 with h3 | ⟨h3, h4⟩
    · left; exact h3
    · right
      obtain ⟨hmem, hgid⟩ := gift_mem_of_get_by_id h
      have hg' : GiftDal.get_gift_by_id s tgid = some g := by
        rw [← h4, hgid]
        exact h
      rw [hg'] at hgp
      have : gp = g := (Option.some.inj hgp).symm
      subst this
      exact ⟨hgps, h3⟩

theorem activate_record_change {s : GiftStore} {now : Nat} {code : String}
    {uid : Int} {subOk : Bool} {gid : Nat} {g g2 : Gift} (hWF : s.WF)
    (h : GiftDal.get_gift_by_id s gid = some g)
    (h2 : GiftDal.get_gift_by_id
      (GiftService.activate_gift s now code uid subOk).store gid = some g2) :
    g2 = g ∨ (g.status = GiftStatus.ready ∧
      (g2.status = GiftStatus.expired ∨ g2.status = GiftStatus.activated)) := by
  rcases activate_store_shape s now code uid subOk with hsh |
    ⟨tgid, gpre, hpmem, hpid, hpst, hsh2⟩
  · rw [hsh, h] at h2
    left
    exact (Option.some.inj h2).symm
  · have hpre_eq : g.gift_id = tgid → g = gpre := by
      intro he
      obtain ⟨hmem, hgid⟩ := gift_mem_of_get_by_id h
      have h5 := get_gift_by_id_of_mem hWF.1 hpmem
      rw [hpid, ← he, hgid, h] at h5
      exact Option.some.inj h5
    rcases hsh2 with hsh | ⟨f, hfid, hfst, hsh⟩
    · rw [hsh] at h2
      rcases record_change_putGift hWF.1 h tgid
          (fun g0 => { g0 with status := GiftStatus.expired }) (fun _ => rfl) h2
        with h3 | ⟨h3, h4⟩
      · left; exact h3
      · right
        refine ⟨?_, Or.inl (by rw [h3])⟩
        rw [hpre_eq h4]
        exact hpst
    · rw [hsh] at h2
      rcases record_change_putGift hWF.1 h tgid f hfid h2 with h3 | ⟨h3, h4⟩
      · left; exact h3
      · right
        refine ⟨?_, Or.inr (by rw [h3]; exact hfst g)⟩
        rw [hpre_eq h4]
        exact hpst

theorem cancel_record_change {s : GiftStore} {now : Nat} {gid0 gid : Nat}
    {uid : Int} {adm : Bool} {g g2 : Gift} (hWF : s.WF)
    (h : GiftDal.get_gift_by_id s gid = some g)
    (h2 : GiftDal.get_gift_by_id
      (GiftService.cancel_gift s now gid0 uid adm).store gid = some g2) :
    g2 = g ∨ ((g.status = GiftStatus.pending_payment ∨ g.status = GiftStatus.ready) ∧
      g2 = GiftDal.cancelFields now g) := by
  rcases cancel_store_shape s now gid0 uid adm with hsh | ⟨g1, hg1, hg1s, hsh⟩
  · rw [hsh, h] at h2
    left
    exact (Option.some.inj h2).symm
  · rw [hsh] at h2
    rcases record_change_putGift hWF.1 h gid0 (GiftDal.cancelFields now)
        (fun _ => rfl) h2 with h3 | ⟨h3, h4⟩
    · left; exact h3
    · right
      obtain ⟨hmem, hgid⟩ := gift_mem_of_get_by_id h
      have hg' : GiftDal.get_gift_by_id s gid0 = some g := by
        rw [← h4, hgid]
        exact h
      rw [hg'] at hg1
      have : g1 = g := (Option.some.inj hg1).symm
      subst this
      exact ⟨hg1s, h3⟩

theorem sweep_record_change {s : GiftStore} {now : Nat} {gid : Nat}
    {g g2 : Gift} (hWF : s.WF)
    (h : GiftDal.get_gift_by_id s gid = some g)
    (h2 : GiftDal.get_gift_by_id (GiftDal.expire_old_gifts s now).1 gid = some g2) :
    g2 = g ∨ (g.status = GiftStatus.ready ∧ g2 = GiftDal.expireField g) := by
  obtain ⟨hmem, hgid⟩ := gift_mem_of_get_by_id h
  subst hgid
  rw [sweep_get hWF.1 hmem now] at h2
  by_cases hhit : (g.status == GiftStatus.ready && GiftDal.expiresBefore g now) = true
  · rw [if_pos hhit] at h2
    right
    have hready : g.status = GiftStatus.ready := by
      have := (Bool.and_eq_true _ _).mp hhit
      simpa using this.1
    exact ⟨hready, (Option.some.inj h2).symm⟩
  · rw [if_neg hhit] at h2
    left
    exact (Option.some.inj h2).symm

theorem process_payment_terminal {s : GiftStore} {now pid : Nat} {g : Gift}
    (h : GiftDal.get_gift_by_payment_id s pid = some g)
    (hterm : g.status.isTerminal = true) :
    GiftService.process_gift_payment s now pid =
      (s, Except.error (GiftService.PaymentError.wrongStatus g.status)) := by
  unfold GiftService.process_gift_payment
  rw [h]
  simp [terminal_ne_pending hterm]

theorem activate_terminal {s : GiftStore} {now : Nat} {code : String}
    {uid : Int} {subOk : Bool} {g : Gift}
    (h : GiftDal.get_gift_by_code s code = some g)
    (hterm : g.status.isTerminal = true) :
    (GiftService.activate_gift s now code uid subOk).store = s ∧
    (GiftService.activate_gift s now code uid subOk).result =
      Except.error (GiftService.ActivateError.validation
        (GiftDal.statusError g.status)) := by
  have hval := @validate_dal_not_ready s now code uid g h (terminal_ne_ready hterm)
  unfold GiftService.activate_gift
  rw [hval]
  exact ⟨rfl, rfl⟩

theorem cancel_terminal {s : GiftStore} {now : Nat} {gid : Nat} {uid : Int}
    {adm : Bool} {g : Gift}
    (h : GiftDal.get_gift_by_id s gid = some g)
    (hterm : g.status.isTerminal = true) :
    (GiftService.cancel_gift s now gid uid adm).store = s ∧
    ∀ v, (GiftService.cancel_gift s now gid uid adm).result ≠ Except.ok v := by
  unfold GiftService.cancel_gift
  rw [h]
  simp only []
  by_cases hauth : ¬ adm = true ∧ g.donor_user_id ≠ uid
  · rw [if_pos hauth]
    exact ⟨rfl, fun v hv => by cases hv⟩
  · rw [if_neg hauth]
    unfold GiftDal.cancel_gift
    rw [h]
    have hsd : ¬ (g.status = GiftStatus.pending_payment ∨
        g.status = GiftStatus.ready) := by
      rintro (h1 | h1)
      · exact terminal_ne_pending hterm h1
      · exact terminal_ne_ready hterm h1
    simp only [if_neg hsd]
    exact ⟨by simp, fun v hv => by simp at hv⟩

theorem sweep_terminal {s : GiftStore} {now : Nat} {g : Gift} (hWF : s.WF)
    (hmem : g ∈ s.gifts) (hterm : g.status.isTerminal = true) :
    GiftDal.get_gift_by_id (GiftDal.expire_old_gifts s now).1 g.gift_id = some g := by
  rw [sweep_get hWF.1 hmem now]
  have : (g.status == GiftStatus.ready && GiftDal.expiresBefore g now) = false := by
    have := terminal_ne_ready hterm
    simp [this]
  rw [this]
  simp

/-- Claim C5: `status` only moves along the edges of the §4.3 state machine.
For each of markPaid (`process_gift_payment`), activate (`activate_gift`,
including its lazy-expiry write), cancel (`cancel_gift`) and the expiry sweep
(`expire_old_gifts`): when the record's current status is terminal
(`activated`, `expired`, `cancelled`, `refunded`, `payment_failed`) the
operation rejects and leaves the record unchanged; and on any record the
operation either leaves the status unchanged or performs one legal edge —
`pending_payment → ready` (markPaid only), `ready → expired/activated`
(activate), `pending_payment/ready → cancelled` (cancel), `ready → expired`
(sweep) — so no operation ever transitions a record back into
`pending_payment` or `ready`. -/
theorem C5_legal_transitions_only :
    (∀ (s : GiftStore) (now pid : Nat) (g : Gift),
      GiftDal.get_gift_by_payment_id s pid = some g →
      g.status.isTerminal = true →
      GiftService.process_gift_payment s now pid =
        (s, Except.error (GiftService.PaymentError.wrongStatus g.status))) ∧
    (∀ (s : GiftStore) (now : Nat) (code : String) (uid : Int) (subOk : Bool)
        (g : Gift),
      GiftDal.get_gift_by_code s code = some g →
      g.status.isTerminal = true →
      (GiftService.activate_gift s now code uid subOk).store = s ∧
      (GiftService.activate_gift s now code uid subOk).result =
        Except.error (GiftService.ActivateError.validation
          (GiftDal.statusError g.status))) ∧
    (∀ (s : GiftStore) (now gid : Nat) (uid : Int) (adm : Bool) (g : Gift),
      GiftDal.get_gift_by_id s gid = some g →
      g.status.isTerminal = true →
      (GiftService.cancel_gift s now gid uid adm).store = s ∧
      ∀ v, (GiftService.cancel_gift s now gid uid adm).result ≠ Except.ok v) ∧
    (∀ (s : GiftStore) (now : Nat) (g : Gift), s.WF → g ∈ s.gifts →
      g.status.isTerminal = true →
      GiftDal.get_gift_by_id (GiftDal.expire_old_gifts s now).1 g.gift_id =
        some g) ∧
    (∀ (s : GiftStore) (now pid gid : Nat) (g g2 : Gift), s.WF →
      GiftDal.get_gift_by_id s gid = some g →
      GiftDal.get_gift_by_id (GiftService.process_gift_payment s now pid).1 gid =
        some g2 →
      g2.status = g.status ∨
        (g.status = GiftStatus.pending_payment ∧ g2.status = GiftStatus.ready)) ∧
    (∀ (s : GiftStore) (now : Nat) (code : String) (uid : Int) (subOk : Bool)
        (gid : Nat) (g g2 : Gift), s.WF →
      GiftDal.get_gift_by_id s gid = some g →
      GiftDal.get_gift_by_id
        (GiftService.activate_gift s now code uid subOk).store gid = some g2 →
      g2.status = g.status ∨
        (g.status = GiftStatus.ready ∧
          (g2.status = GiftStatus.expired ∨ g2.status = GiftStatus.activated))) ∧
    (∀ (s : GiftStore) (now gid0 : Nat) (uid : Int) (adm : Bool) (gid : Nat)
        (g g2 : Gift), s.WF →
      GiftDal.get_gift_by_id s gid = some g →
      GiftDal.get_gift_by_id
        (GiftService.cancel_gift s now gid0 uid adm).store gid = some g2 →
      g2.status = g.status ∨
        ((g.status = GiftStatus.pending_payment ∨ g.status = GiftStatus.ready) ∧
          g2.status = GiftStatus.cancelled)) ∧
    (∀ (s : GiftStore) (now gid : Nat) (g g2 : Gift), s.WF →
      GiftDal.get_gift_by_id s gid = some g →
      GiftDal.get_gift_by_id (GiftDal.expire_old_gifts s now).1 gid = some g2 →
      g2.status = g.status ∨
        (g.status = GiftStatus.ready ∧ g2.status = GiftStatus.expired)) := by
  refine ⟨?_, ?_, ?_, ?_, ?_, ?_, ?_, ?_⟩
  · intro s now pid g h hterm
    exact process_payment_terminal h hterm
  · intro s now code uid subOk g h hterm
    exact activate_terminal h hterm
  · intro s now gid uid adm g h hterm
    exact cancel_terminal h hterm
  · intro s now g hWF hmem hterm
    exact sweep_terminal hWF hmem hterm
  · intro s now pid gid g g2 hWF h h2
    rcases process_payment_record_change hWF h h2 with h3 | ⟨h3, h4⟩
    · left; rw [h3]
    · right
      exact ⟨h3, by rw [h4]; rfl⟩
  · intro s now code uid subOk gid g g2 hWF h h2
    rcases activate_record_change hWF h h2 with h3 | ⟨h3, h4⟩
    · left; rw [h3]
    · right; exact ⟨h3, h4⟩
  · intro s now gid0 uid adm gid g g2 hWF h h2
    rcases cancel_record_change hWF h h2 with h3 | ⟨h3, h4⟩
    · left; rw [h3]
    · right
      exact ⟨h3, by rw [h4]; rfl⟩
  · intro s now gid g g2 hWF h h2
    rcases sweep_record_change hWF h h2 with h3 | ⟨h3, h4⟩
    · left; rw [h3]
    · right
      exact ⟨h3, by rw [h4]; rfl⟩

/-- Witness for C5 at the concrete fixture: the already-`activated` gift is
rejected unchanged by markPaid, activate, cancel, and left untouched by the
sweep. -/
theorem C5_legal_transitions_only_witness :
    GiftService.process_gift_payment c5Store 4000 5 =
      (c5Store, Except.error (GiftService.PaymentError.wrongStatus
        GiftStatus.activated)) ∧
    (GiftService.activate_gift c5Store 4000 "GIFTCODE00000001" 8 true).store =
      c5Store ∧
    (GiftService.cancel_gift c5Store 4000 1 10 false).store = c5Store ∧
    GiftDal.get_gift_by_id (GiftDal.expire_old_gifts c5Store 4000).1 1 =
      some c5Gift :=
  ⟨C5_legal_transitions_only.1 c5Store 4000 5 c5Gift (by decide) (by decide),
   (C5_legal_transitions_only.2.1 c5Store 4000 "GIFTCODE00000001" 8 true c5Gift
     (by decide) (by decide)).1,
   (C5_legal_transitions_only.2.2.1 c5Store 4000 1 10 false c5Gift
     (by decide) (by decide)).1,
   C5_legal_transitions_only.2.2.2.1 c5Store 4000 c5Gift (by decide) (by decide)
     (by decide)⟩

/-- Counterexample to C6: the claim says cancellation runs under the same
per-record exclusive lock as activation.  On the fixture, the cancellation
succeeds having emitted no `lockRow` event at all (it reads through the plain
`get_gift_by_id`, which has no `FOR UPDATE` option), while an activation of
the very same record starts by taking the row lock. -/
theorem C6_counterexample :
    (GiftService.cancel_gift c6Store 3000 1 10 false).events = [DbEvent.commitTx] ∧
    (GiftService.cancel_gift c6Store 3000 1 10 false).result =
      Except.ok { gift_id := 1, gift_code := "GIFTCODE00000001",
                  status := GiftStatus.cancelled, cancelled_at := some 3000 } ∧
    (GiftService.activate_gift c6Store 3000 "GIFTCODE00000001" 7 true).events.head? =
      some (DbEvent.lockRow "GIFTCODE00000001") := by
  decide

/-- Claim C6, amended to the code: `cancelGift` succeeds only from
`pending_payment` or `ready` and only for the donor or an admin, setting
`status = cancelled` and `cancelled_at = now`; however it reads the record
with a plain `SELECT` — it never takes the `SELECT ... FOR UPDATE` row lock
that `activate` takes — and when the record has already reached `activated`
by the time it runs, it fails with the error
`"Cannot cancel gift in status activated"` (the generic status-based
cancellation error carrying the `activated` status, not the activation path's
dedicated already-activated error) rather than silently no-opping. -/
theorem C6_amended_cancel (s : GiftStore) (now gid : Nat) (uid : Int)
    (adm : Bool) :
    (∀ c, DbEvent.lockRow c ∉ (GiftService.cancel_gift s now gid uid adm).events) ∧
    (∀ v, (GiftService.cancel_gift s now gid uid adm).result = Except.ok v →
      ∃ g, GiftDal.get_gift_by_id s gid = some g ∧
        (adm = true ∨ g.donor_user_id = uid) ∧
        (g.status = GiftStatus.pending_payment ∨ g.status = GiftStatus.ready) ∧
        v = { gift_id := g.gift_id, gift_code := g.gift_code,
              status := GiftStatus.cancelled, cancelled_at := some now } ∧
        (GiftService.cancel_gift s now gid uid adm).store =
          GiftDal.putGift s gid (GiftDal.cancelFields now)) ∧
    (∀ g, GiftDal.get_gift_by_id s gid = some g →
      g.status = GiftStatus.activated →
      (adm = true ∨ g.donor_user_id = uid) →
      (GiftService.cancel_gift s now gid uid adm).result =
        Except.error (GiftService.CancelError.dal
          (GiftDal.CancelDalError.cannotCancelInStatus GiftStatus.activated)) ∧
      (GiftService.cancel_gift s now gid uid adm).store = s) := by
  refine ⟨?_, ?_, ?_⟩
  · intro c
    unfold GiftService.cancel_gift
    cases hid : GiftDal.get_gift_by_id s gid with
    | none => simp
    | some g0 =>
        simp only []
        by_cases hauth : ¬ adm = true ∧ g0.donor_user_id ≠ uid
        · simp [hauth]
        · rw [if_neg hauth]
          unfold GiftDal.cancel_gift
          rw [hid]
          simp only []
          by_cases hsd : g0.status = GiftStatus.pending_payment ∨
              g0.status = GiftStatus.ready
          · simp [hsd]
          · simp [hsd]
  · intro v hv
    unfold GiftService.cancel_gift at hv
    cases hid : GiftDal.get_gift_by_id s gid with
    | none =>
        rw [hid] at hv
        simp at hv
    | some g0 =>
        rw [hid] at hv
        simp only [] at hv
        by_cases hauth : ¬ adm = true ∧ g0.donor_user_id ≠ uid
        · rw [if_pos hauth] at hv
          simp at hv
        · rw [if_neg hauth] at hv
          have hauth2 : adm = true ∨ g0.donor_user_id = uid := by
            by_cases ha : adm = true
            · exact Or.inl ha
            · right
              by_contra hne
              exact hauth ⟨ha, hne⟩
          by_cases hsd : g0.status = GiftStatus.pending_payment ∨
              g0.status = GiftStatus.ready
          · have hdal : GiftDal.cancel_gift s now gid g0.donor_user_id =
                (GiftDal.putGift s gid (GiftDal.cancelFields now),
                 some (GiftDal.cancelFields now g0), none) := by
              unfold GiftDal.cancel_gift
              rw [hid]
              simp [hsd]
            rw [hdal] at hv
            simp only [] at hv
            refine ⟨g0, rfl, hauth2, hsd, (Except.ok.inj hv).symm, ?_⟩
            unfold GiftService.cancel_gift
            rw [hid]
            simp only []
            rw [if_neg hauth, hdal]
          · unfold GiftDal.cancel_gift at hv
            rw [hid] at hv
            simp [hsd] at hv
  · intro g hgid hact hauth2
    have hnauth : ¬ (¬ adm = true ∧ g.donor_user_id ≠ uid) := by
      rintro ⟨ha, hne⟩
      rcases hauth2 with h1 | h1
      · exact ha h1
      · exact hne h1
    have hsd : ¬ (g.status = GiftStatus.pending_payment ∨
        g.status = GiftStatus.ready) := by
      rw [hact]
      rintro (h1 | h1) <;> cases h1
    have hrun : GiftService.cancel_gift s now gid uid adm =
        { store := s
          result := Except.error (GiftService.CancelError.dal
            (GiftDal.CancelDalError.cannotCancelInStatus GiftStatus.activated))
          events := [] } := by
      unfold GiftService.cancel_gift GiftDal.cancel_gift
      rw [hgid]
      simp only []
      rw [if_neg hnauth]
      rw [if_neg (fun hne : g.donor_user_id ≠ g.donor_user_id => hne rfl)]
      rw [if_neg hsd, hact]
    rw [hrun]
    exact ⟨rfl, rfl⟩

/-- Witness for the amended C6: no `lockRow` event on the `ready`-gift
cancellation, and the dedicated failure on the already-activated gift. -/
theorem C6_amended_witness :
    (∀ c, DbEvent.lockRow c ∉ (GiftService.cancel_gift c6Store 3000 1 10 false).events) ∧
    (GiftService.cancel_gift c6ActStore 3000 1 10 false).result =
      Except.error (GiftService.CancelError.dal
        (GiftDal.CancelDalError.cannotCancelInStatus GiftStatus.activated)) ∧
    (GiftService.cancel_gift c6ActStore 3000 1 10 false).store = c6ActStore :=
  ⟨(C6_amended_cancel c6Store 3000 1 10 false).1,
   (C6_amended_cancel c6ActStore 3000 1 10 false).2.2 c6ActGift (by decide) rfl
     (Or.inr rfl)⟩

/-- Claim C9: markPaid (`process_gift_payment`) finds the gift by payment
correlation; while it is `pending_payment` it sets `payment_id`,
`paid_at = now`, `expires_at = paid_at + 90 days` and `status = ready` and
reports success; when the status is already past `pending_payment` the call
leaves the record (indeed the whole store) unchanged, so delivering the
payment-succeeded notification more than once is safe. -/
theorem C9_mark_paid (s : GiftStore) (now pid : Nat) (g : Gift) (hWF : s.WF)
    (h : GiftDal.get_gift_by_payment_id s pid = some g) :
    (g.status = GiftStatus.pending_payment →
      GiftService.process_gift_payment s now pid =
        (GiftDal.putGift s g.gift_id (GiftDal.paidFields now pid),
         Except.ok
           { gift_id := g.gift_id
             gift_code := g.gift_code
             status := GiftStatus.ready
             paid_at := some now
             expires_at := some (now + GiftDal.GIFT_EXPIRATION_DAYS * 86400) }) ∧
      GiftDal.get_gift_by_id
          (GiftService.process_gift_payment s now pid).1 g.gift_id =
        some (GiftDal.paidFields now pid g)) ∧
    (g.status ≠ GiftStatus.pending_payment →
      GiftService.process_gift_payment s now pid =
        (s, Except.error (GiftService.PaymentError.wrongStatus g.status))) := by
  obtain ⟨hmem, _⟩ := gift_mem_of_get_by_payment h
  have hid := get_gift_by_id_of_mem hWF.1 hmem
  constructor
  · intro hst
    have hrun : GiftService.process_gift_payment s now pid =
        (GiftDal.putGift s g.gift_id (GiftDal.paidFields now pid),
         Except.ok
           { gift_id := g.gift_id
             gift_code := g.gift_code
             status := GiftStatus.ready
             paid_at := some now
             expires_at := some (now + GiftDal.GIFT_EXPIRATION_DAYS * 86400) }) := by
      unfold GiftService.process_gift_payment GiftDal.mark_gift_as_paid
      rw [h]
      simp [hst, hid, GiftDal.paidFields]
    refine ⟨hrun, ?_⟩
    rw [hrun]
    have hput := get_gift_by_id_putGift hWF.1 hmem g.gift_id
      (GiftDal.paidFields now pid) (fun _ => rfl)
    simpa using hput
  · intro hst
    unfold GiftService.process_gift_payment
    rw [h]
    simp [hst]

/-- Witness for C9 at the concrete fixture: the first delivery of payment 5
moves the gift to `ready` with the 90-day expiry; the second delivery is a
no-op that leaves the store untouched. -/
theorem C9_mark_paid_witness :
    (GiftService.process_gift_payment c9Store 2000 5 =
      (GiftDal.putGift c9Store 1 (GiftDal.paidFields 2000 5),
       Except.ok
         { gift_id := 1
           gift_code := "GIFTCODE00000001"
           status := GiftStatus.ready
           paid_at := some 2000
           expires_at := some (2000 + 90 * 86400) }) ∧
     GiftDal.get_gift_by_id (GiftService.process_gift_payment c9Store 2000 5).1 1 =
       some (GiftDal.paidFields 2000 5 c9Gift)) ∧
    GiftService.process_gift_payment
        (GiftDal.putGift c9Store 1 (GiftDal.paidFields 2000 5)) 2500 5 =
      (GiftDal.putGift c9Store 1 (GiftDal.paidFields 2000 5),
       Except.error (GiftService.PaymentError.wrongStatus GiftStatus.ready)) :=
  ⟨(C9_mark_paid c9Store 2000 5 c9Gift (by decide) (by decide)).1 rfl,
   (C9_mark_paid (GiftDal.putGift c9Store 1 (GiftDal.paidFields 2000 5)) 2500 5
     (GiftDal.paidFields 2000 5 c9Gift) (by decide) (by decide)).2 (by decide)⟩

/-! Branch analysis of the creation pipeline. -/

set_option maxHeartbeats 1000000 in
theorem create_gift_cases (s : GiftStore) (now : Nat) (fresh_code : String)
    (donor_id : Int) (tariff_id : Nat) (rt : GiftRecipientType) (key : String)
    (rcp : Option Int) (msg meta : Option String) :
    (GiftService.create_gift s now fresh_code donor_id tariff_id rt key
      rcp msg meta).1 = s ∨
    ∃ v, (GiftService.create_gift s now fresh_code donor_id tariff_id rt key
      rcp msg meta).2 = Except.ok v := by
  unfold GiftService.create_gift
  simp only []
  repeat' split
  all_goals first
    | (left; rfl)
    | (right; exact ⟨_, rfl⟩)

theorem create_gift_record_dup_key {s : GiftStore} {now : Nat}
    {fresh_code : String} {d : GiftDal.GiftData}
    (hdup : ∃ g0 ∈ s.gifts, g0.idempotency_key = d.idempotency_key) :
    ∀ s1 g, GiftDal.create_gift_record s now fresh_code d ≠ Except.ok (s1, g) := by
  intro s1 g h
  obtain ⟨g0, hg0, hkey⟩ := hdup
  have hany : (s.gifts.any fun gx => gx.gift_code == fresh_code ||
      gx.idempotency_key == d.idempotency_key) = true :=
    List.any_eq_true.mpr ⟨g0, hg0, by simp [hkey]⟩
  unfold GiftDal.create_gift_record at h
  simp only [] at h
  split at h
  · cases h
  · split at h
    · cases h
    · split at h
      · cases h
      · cases h

set_option maxHeartbeats 1000000 in
theorem create_gift_dup_key_no_ok {s : GiftStore} {now : Nat}
    {fresh_code : String} {donor_id : Int} {tariff_id : Nat}
    {rt : GiftRecipientType} {key : String} {rcp : Option Int}
    {msg meta : Option String}
    (hdup : ∃ g0 ∈ s.gifts, g0.idempotency_key = key) :
    ∀ v, (GiftService.create_gift s now fresh_code donor_id tariff_id rt key
      rcp msg meta).2 ≠ Except.ok v := by
  intro v hv
  obtain ⟨g0, hg0, hkey⟩ := hdup
  unfold GiftService.create_gift at hv
  simp only [] at hv
  repeat' split at hv
  all_goals try (cases hv)
  all_goals rename_i heq
  all_goals exact create_gift_record_dup_key ⟨g0, hg0, hkey⟩ _ _ heq

/-- Claim C10: creation is atomic on failure — whenever `createGift` returns a
failure result (any validation, rate, spend or budget rejection, or the
internal-error path after an exception), the gift store is unchanged: every
check returns before the insert, and a failing insert is rolled back. -/
theorem C10_creation_atomic_on_failure (s : GiftStore) (now : Nat)
    (fresh_code : String) (donor_id : Int) (tariff_id : Nat)
    (rt : GiftRecipientType) (key : String) (rcp : Option Int)
    (msg meta : Option String) (e : GiftService.CreateError)
    (h : (GiftService.create_gift s now fresh_code donor_id tariff_id rt key
      rcp msg meta).2 = Except.error e) :
    (GiftService.create_gift s now fresh_code donor_id tariff_id rt key
      rcp msg meta).1 = s := by
  rcases create_gift_cases s now fresh_code donor_id tariff_id rt key rcp msg meta
    with h1 | ⟨v, hv⟩
  · exact h1
  · rw [hv] at h
    cases h

/-- Witness for C10: creation by the unknown donor 99 fails and leaves the
empty fixture store untouched. -/
theorem C10_creation_atomic_on_failure_witness :
    (GiftService.create_gift c10Store 1000 "FRESHCODE0000010" 99 1
      GiftRecipientType.random "key10" none none none).1 = c10Store :=
  C10_creation_atomic_on_failure c10Store 1000 "FRESHCODE0000010" 99 1
    GiftRecipientType.random "key10" none none none
    GiftService.CreateError.donorNotFound (by decide)

/-- Counterexample to C4: `create_gift` performs no idempotency-key lookup.
Retrying an identical creation (same `idempotencyKey` "KEYX") after a
successful first call does produce exactly one stored record — the unique
constraint fails the duplicate insert — but the retried call returns the
rolled-back internal error, not the already-created record with its
`giftId`. -/
theorem C4_counterexample :
    (GiftService.create_gift c4Store 1000 "FRESHCODE0000001" 10 1
        GiftRecipientType.random "KEYX" none none none).2 =
      Except.ok
        { gift_id := 1
          gift_code := "FRESHCODE0000001"
          amount := 300
          currency := "RUB"
          tariff_name := "Pro"
          duration_days := 30
          recipient_type := GiftRecipientType.random
          status := GiftStatus.pending_payment } ∧
    (GiftService.create_gift
        (GiftService.create_gift c4Store 1000 "FRESHCODE0000001" 10 1
          GiftRecipientType.random "KEYX" none none none).1
        1500 "FRESHCODE0000002" 10 1 GiftRecipientType.random "KEYX"
        none none none).2 = Except.error GiftService.CreateError.internalError ∧
    ((GiftService.create_gift
        (GiftService.create_gift c4Store 1000 "FRESHCODE0000001" 10 1
          GiftRecipientType.random "KEYX" none none none).1
        1500 "FRESHCODE0000002" 10 1 GiftRecipientType.random "KEYX"
        none none none).1.gifts.countP
      fun g => g.idempotency_key == "KEYX") = 1 := by
  decide

/-- Claim C4, amended to the code: calling `createGift` twice with an
identical `idempotencyKey` produces exactly one stored gift record — the
unique constraint on `idempotency_key` makes the duplicate insert raise, the
transaction is rolled back and the store is unchanged — but the retried call
returns the `"Internal error"` failure, never the already-created record. -/
theorem C4_amended_idempotency_key (s : GiftStore) (now : Nat)
    (fresh_code : String) (donor_id : Int) (tariff_id : Nat)
    (rt : GiftRecipientType) (key : String) (rcp : Option Int)
    (msg meta : Option String)
    (hdup : ∃ g ∈ s.gifts, g.idempotency_key = key) :
    (GiftService.create_gift s now fresh_code donor_id tariff_id rt key
      rcp msg meta).1 = s ∧
    ∀ v, (GiftService.create_gift s now fresh_code donor_id tariff_id rt key
      rcp msg meta).2 ≠ Except.ok v := by
  have hnok : ∀ v, (GiftService.create_gift s now fresh_code donor_id tariff_id
      rt key rcp msg meta).2 ≠ Except.ok v :=
    create_gift_dup_key_no_ok hdup
  refine ⟨?_, hnok⟩
  rcases create_gift_cases s now fresh_code donor_id tariff_id rt key rcp msg meta
    with h1 | ⟨v, hv⟩
  · exact h1
  · exact absurd hv (hnok v)

/-- Witness for the amended C4: retrying the fixture creation with the same
key "KEYX" changes nothing and cannot succeed. -/
theorem C4_amended_witness :
    (GiftService.create_gift
        (GiftService.create_gift c4Store 1000 "FRESHCODE0000001" 10 1
          GiftRecipientType.random "KEYX" none none none).1
        1500 "FRESHCODE0000002" 10 1 GiftRecipientType.random "KEYX"
        none none none).1 =
      (GiftService.create_gift c4Store 1000 "FRESHCODE0000001" 10 1
        GiftRecipientType.random "KEYX" none none none).1 ∧
    ∀ v, (GiftService.create_gift
        (GiftService.create_gift c4Store 1000 "FRESHCODE0000001" 10 1
          GiftRecipientType.random "KEYX" none none none).1
        1500 "FRESHCODE0000002" 10 1 GiftRecipientType.random "KEYX"
        none none none).2 ≠ Except.ok v :=
  C4_amended_idempotency_key
    (GiftService.create_gift c4Store 1000 "FRESHCODE0000001" 10 1
      GiftRecipientType.random "KEYX" none none none).1
    1500 "FRESHCODE0000002" 10 1 GiftRecipientType.random "KEYX" none none none
    (by decide)

/-- Counterexample to C7: the code's daily spend sum counts only gifts in
status `pending_payment`, `ready` or `activated` — not all non-cancelled
gifts.  Donor 10 has a 9800-ruble `expired` gift created today: the claim's
non-cancelled sum plus the 300-ruble candidate exceeds the 10000 cap, so the
claim requires rejection, yet the code allows the creation.  And when the
pre-check does reject (cap already reached), its message carries the spent
amount and the cap — not the remaining budget the claim requires every
spend-limit rejection to state. -/
theorem C7_counterexample :
    specDailySpendNonCancelled c7Store c7now 10 + 300 > 10000 ∧
    (GiftService.create_gift c7Store c7now "FRESHCODE0000007" 10 1
        GiftRecipientType.random "keyNew" none none none).2 =
      Except.ok
        { gift_id := 4
          gift_code := "FRESHCODE0000007"
          amount := 300
          currency := "RUB"
          tariff_name := "Pro"
          duration_days := 30
          recipient_type := GiftRecipientType.random
          status := GiftStatus.pending_payment } ∧
    (GiftService.create_gift c7capStore c7now "FRESHCODE0000009" 10 1
        GiftRecipientType.random "keyNew3" none none none).2 =
      Except.error (GiftService.CreateError.dailySpendingLimitExceeded
        10000 10000) := by
  decide

/-- Claim C7, amended to the code: the daily spend check sums the `amount` of
the donor's gifts created since midnight UTC whose status is
`pending_payment`, `ready` or `activated` (expired, refunded and
payment-failed gifts are excluded along with cancelled ones).  Given the
earlier donor, rate-limit and tariff checks pass, the creation is allowed iff
that sum is strictly below maxDailySpend (10000) and additionally the tariff
price is at most the remaining budget maxDailySpend − sum.  The pre-check
rejection message carries the spent amount and the cap; only the per-tariff
rejection states the remaining budget. -/
theorem C7_amended_daily_spend (s : GiftStore) (now : Nat) (fresh_code : String)
    (donor_id : Int) (tariff_id : Nat) (key : String) (u : User) (t : Tariff)
    (hu : GiftDal.get_user_by_id s donor_id = some u)
    (hub : u.is_banned = false)
    (hh : (GiftDal.check_user_gift_rate_limit s now donor_id 1
      GiftService.MAX_GIFTS_PER_HOUR).1 = true)
    (hd : (GiftDal.check_user_gift_rate_limit s now donor_id 24
      GiftService.MAX_GIFTS_PER_DAY).1 = true)
    (ht : GiftDal.get_tariff_by_id s tariff_id = some t)
    (hta : t.is_active = true) :
    (GiftDal.check_user_daily_gift_spending s now donor_id
        GiftService.MAX_DAILY_SPENDING).2 =
      (s.gifts.filter fun g => g.donor_user_id == donor_id &&
        decide (GiftDal.todayStartUTC now ≤ g.created_at) &&
        (g.status == GiftStatus.pending_payment || g.status == GiftStatus.ready ||
         g.status == GiftStatus.activated)).foldl (fun acc g => acc + g.amount) 0 ∧
    (¬ (GiftDal.check_user_daily_gift_spending s now donor_id
          GiftService.MAX_DAILY_SPENDING).2 < GiftService.MAX_DAILY_SPENDING →
      GiftService.create_gift s now fresh_code donor_id tariff_id
        GiftRecipientType.random key none none none =
        (s, Except.error (GiftService.CreateError.dailySpendingLimitExceeded
          (GiftDal.check_user_daily_gift_spending s now donor_id
            GiftService.MAX_DAILY_SPENDING).2 GiftService.MAX_DAILY_SPENDING))) ∧
    ((GiftDal.check_user_daily_gift_spending s now donor_id
        GiftService.MAX_DAILY_SPENDING).2 < GiftService.MAX_DAILY_SPENDING →
      t.price > GiftService.MAX_DAILY_SPENDING -
        (GiftDal.check_user_daily_gift_spending s now donor_id
          GiftService.MAX_DAILY_SPENDING).2 →
      GiftService.create_gift s now fresh_code donor_id tariff_id
        GiftRecipientType.random key none none none =
        (s, Except.error (GiftService.CreateError.insufficientDailyBudget
          (GiftService.MAX_DAILY_SPENDING -
            (GiftDal.check_user_daily_gift_spending s now donor_id
              GiftService.MAX_DAILY_SPENDING).2)))) ∧
    ((GiftDal.check_user_daily_gift_spending s now donor_id
        GiftService.MAX_DAILY_SPENDING).2 < GiftService.MAX_DAILY_SPENDING →
      t.price ≤ GiftService.MAX_DAILY_SPENDING -
        (GiftDal.check_user_daily_gift_spending s now donor_id
          GiftService.MAX_DAILY_SPENDING).2 →
      (∀ g0 ∈ s.gifts, g0.gift_code ≠ fresh_code ∧ g0.idempotency_key ≠ key) →
      (GiftService.create_gift s now fresh_code donor_id tariff_id
        GiftRecipientType.random key none none none).2 =
        Except.ok
          { gift_id := s.next_gift_id
            gift_code := fresh_code
            amount := t.price
            currency := t.currency
            tariff_name := t.name
            duration_days := t.duration_days
            recipient_type := GiftRecipientType.random
            status := GiftStatus.pending_payment }) := by
  refine ⟨rfl, ?_, ?_, ?_⟩
  · intro hns
    have hs1 : (GiftDal.check_user_daily_gift_spending s now donor_id
        GiftService.MAX_DAILY_SPENDING).1 = false := decide_eq_false hns
    unfold GiftService.create_gift
    rw [hu]
    try simp only []
    rw [if_neg (by simp [hub]), if_neg (by simp [hh]), if_neg (by simp [hd]),
      if_pos (by simp [hs1])]
  · intro hlt hover
    have hs1 : (GiftDal.check_user_daily_gift_spending s now donor_id
        GiftService.MAX_DAILY_SPENDING).1 = true := decide_eq_true hlt
    unfold GiftService.create_gift
    rw [hu]
    try simp only []
    rw [if_neg (by simp [hub]), if_neg (by simp [hh]), if_neg (by simp [hd]),
      if_neg (by simp [hs1]), ht]
    try simp only []
    rw [if_neg (by simp [hta])]
    try simp only []
    rw [if_pos hover]
  · intro hlt hfit hfresh
    have hs1 : (GiftDal.check_user_daily_gift_spending s now donor_id
        GiftService.MAX_DAILY_SPENDING).1 = true := decide_eq_true hlt
    have hany : (s.gifts.any fun g0 => g0.gift_code == fresh_code ||
        g0.idempotency_key == key) = false := by
      rw [List.any_eq_false]
      intro g0 hg0
      simp [(hfresh g0 hg0).1, (hfresh g0 hg0).2]
    unfold GiftService.create_gift GiftDal.create_gift_record
    rw [hu]
    try simp only []
    rw [if_neg (by simp [hub]), if_neg (by simp [hh]), if_neg (by simp [hd]),
      if_neg (by simp [hs1]), ht]
    try simp only []
    rw [if_neg (by simp [hta])]
    try simp only []
    rw [if_neg (by simp [hfit] : ¬ t.price > GiftService.MAX_DAILY_SPENDING -
      (GiftDal.check_user_daily_gift_spending s now donor_id
        GiftService.MAX_DAILY_SPENDING).2)]
    try simp only [GiftService.truthyId, GiftService.truthyStr]
    rw [hu]
    try simp only []
    rw [if_neg (by simp)]
    rw [if_neg (by simp [hany])]

/-- Witness for the amended C7 (the spec §8 numbers): with 9700 already spent
today, a price-250 creation succeeds — the remaining budget 300 covers it. -/
theorem C7_amended_witness :
    (GiftService.create_gift c7wStore c7now "FRESHCODE0000008" 10 2
        GiftRecipientType.random "keyNew2" none none none).2 =
      Except.ok
        { gift_id := 4
          gift_code := "FRESHCODE0000008"
          amount := 250
          currency := "RUB"
          tariff_name := "Pro"
          duration_days := 30
          recipient_type := GiftRecipientType.random
          status := GiftStatus.pending_payment } :=
  (C7_amended_daily_spend c7wStore c7now "FRESHCODE0000008" 10 2 "keyNew2"
    { user_id := 10, username := some "don", is_banned := false }
    { baseTariff with id := 2, price := 250 }
    (by decide) rfl (by decide) (by decide) (by decide) rfl).2.2.2
    (by decide) (by decide) (by decide)

end GiftSpec
